import Mathlib

/-!
Verification of the maf-chat-agents-system ticket pipeline.

Strings are embedded as lists of characters (`Str`).  Python regular
expressions used by the code are compiled by hand into deterministic
matchers; the relevant patterns contain no genuinely nondeterministic
backtracking (character classes at the boundaries are disjoint), so the
matchers below reproduce the Python `re` semantics on the inputs the
system handles.  `re.IGNORECASE` on the ASCII classes `[A-Z]` is embedded
as also accepting `a`-`z`; Python's whitespace class is embedded by its
ASCII members.  The md5 message fingerprint used by the session store is
embedded as an abstract key-derivation parameter `hash`.
-/

namespace ChatAgents

abbrev Str := List Char

/-- Character list of a string literal. -/
def str (s : String) : Str := s.data

/-- ASCII members of Python's regex class `\s` (also used by `str.strip`). -/
def isPySpace (c : Char) : Bool :=
  c == ' ' || c == '\t' || c == '\n' || c == '\r' || c == '\x0b' || c == '\x0c'

/-- Python `str.strip()`. -/
def pstrip (l : Str) : Str :=
  ((l.dropWhile isPySpace).reverse.dropWhile isPySpace).reverse

/-- ASCII letter (the `[A-Z]` class under `re.IGNORECASE`). -/
def isAsciiAlpha (c : Char) : Bool :=
  ('A' ≤ c && c ≤ 'Z') || ('a' ≤ c && c ≤ 'z')

def isAsciiDigit (c : Char) : Bool := '0' ≤ c && c ≤ '9'

/-- The class `[A-Z0-9._%+-]` (local part of an email) under IGNORECASE. -/
def isLocalChar (c : Char) : Bool :=
  isAsciiAlpha c || isAsciiDigit c || c == '.' || c == '_' || c == '%' || c == '+' || c == '-'

/-- The class `[A-Z0-9.-]` (domain part of an email) under IGNORECASE. -/
def isDomainChar (c : Char) : Bool :=
  isAsciiAlpha c || isAsciiDigit c || c == '.' || c == '-'

/-- ASCII lowercasing (Python `str.lower()` on the ASCII range). -/
def lowerChar (c : Char) : Char :=
  if 'A' ≤ c && c ≤ 'Z' then Char.ofNat (c.toNat + 32) else c

def lowerStr (l : Str) : Str := l.map lowerChar

/-- Anchored match of `[A-Z0-9.-]+\.[A-Z]{2,}$` (IGNORECASE) against `r`:
the whole of `r` is domain characters, its part after the last dot is at
least two letters, and at least one domain character precedes that dot. -/
def anchoredDomain (r : Str) : Bool :=
  let t := (r.reverse.takeWhile (fun c => c != '.')).reverse
  r.all isDomainChar && r.contains '.' && decide (2 ≤ t.length) &&
    t.all isAsciiAlpha && decide (t.length + 2 ≤ r.length)

/-- Split a list at the first comma: `some (before, after)` when a comma occurs. -/
def splitFirstComma (l : Str) : Option (Str × Str) :=
  let pre := l.takeWhile (fun c => c != ',')
  match l.drop pre.length with
  | ',' :: rest => some (pre, rest)
  | _ => none

/-- The strict identity format
`^[^,]+,\s*[^,]+,\s*[A-Z0-9._%+-]+@[A-Z0-9.-]+\.[A-Z]{2,}$` (IGNORECASE),
shared by `workflow.py` and `agents/identity.py` as `IDENTITY_FORMAT_PATTERN`.
The two `[^,]+` groups stop at the first comma, and `\s*` before the email
cannot overlap with the email's local characters, so the match is the
deterministic decomposition below. -/
def identityFormatMatch (l : Str) : Bool :=
  match splitFirstComma l with
  | none => false
  | some (seg1, rest1) =>
    !seg1.isEmpty &&
      match splitFirstComma rest1 with
      | none => false
      | some (seg2, rest2) =>
        !seg2.isEmpty &&
          (let r := rest2.dropWhile isPySpace
           let loc := r.takeWhile isLocalChar
           !loc.isEmpty &&
             match r.drop loc.length with
             | '@' :: dom => anchoredDomain dom
             | _ => false)

/-- Index (into `r`) of the dot chosen by the backtracking domain match
`[A-Z0-9.-]+\.[A-Z]{2,}` without an end anchor: the largest `k ≥ 1` with
`r[k] = '.'` followed by at least two letters.  `r` is the maximal run of
domain characters after the `@`. -/
def lastGoodDot (r : Str) : Option Nat :=
  ((List.range r.length).filter fun k =>
    decide (1 ≤ k) && r.getD k ' ' == '.' &&
      isAsciiAlpha (r.getD (k + 1) ' ') && isAsciiAlpha (r.getD (k + 2) ' ') &&
      decide (k + 2 < r.length)).max?

/-- Unanchored match of `_EMAIL_PATTERN` at the head of `l`: returns the
matched text.  The local run is maximal (no local character equals `@`),
the domain run after `@` is maximal, and backtracking settles on the last
eligible dot followed by the maximal letter run. -/
def emailMatchAt (l : Str) : Option Str :=
  if (l.takeWhile isLocalChar).isEmpty then none
  else
    match l.drop (l.takeWhile isLocalChar).length with
    | '@' :: rest =>
      match lastGoodDot (rest.takeWhile isDomainChar) with
      | some k =>
        some (l.takeWhile isLocalChar ++ '@' :: (rest.takeWhile isDomainChar).take k ++
          '.' :: ((rest.takeWhile isDomainChar).drop (k + 1)).takeWhile isAsciiAlpha)
      | none => none
    | _ => none

/-- `_EMAIL_PATTERN.search`: the match at the leftmost position admitting one. -/
def emailSearch : Str → Option Str
  | [] => none
  | c :: rest =>
    match emailMatchAt (c :: rest) with
    | some m => some m
    | none => emailSearch rest

/-- Whether `_EMAIL_PATTERN.search` succeeds on `l`. -/
def emailFound (l : Str) : Bool := (emailSearch l).isSome

example : identityFormatMatch (str "Müller, Hans, hans@example.com") = true := by decide
example : identityFormatMatch (str "Ich brauche einen Laptop") = false := by decide
example : identityFormatMatch (str "Müller, Hans, keine-email") = false := by decide
example : identityFormatMatch (str "Müller,Hans,HANS@EX.DE") = true := by decide
example : emailSearch (str "bitte an hans@example.com senden") = some (str "hans@example.com") := by decide
example : emailSearch (str "kein treffer") = none := by decide

/-- Python truthiness of an optional string: `None` and `""` are falsy. -/
def truthy : Option Str → Bool
  | none => false
  | some l => !l.isEmpty

/-- `a or b` on optional strings (Python `x or y` with string operands). -/
def orElseTruthy (a b : Option Str) : Option Str :=
  if truthy a then a else b

/-! ## Data model (`schemas.py`) -/

/-- `TicketCategory` — the closed category enumeration. -/
inductive TicketCategory where
  | AI_HISTORY
  | O365
  | HARDWARE
  | LOGIN
  | OTHER
deriving DecidableEq, Repr

/-- The canonical German label of each category (`TicketCategory.value`). -/
def TicketCategory.value : TicketCategory → Str
  | .AI_HISTORY => str "Frage zur Historie von AI"
  | .O365 => str "O365 Frage"
  | .HARDWARE => str "Bestellung von Hardware"
  | .LOGIN => str "Probleme bei der Anmeldung"
  | .OTHER => str "Sonstiges"

/-- Iteration order of `for category in TicketCategory` (declaration order). -/
def ticketCategories : List TicketCategory :=
  [.AI_HISTORY, .O365, .HARDWARE, .LOGIN, .OTHER]

/-- `TicketInput` — raw user input.  The `chat_agents_system` variant of
`schemas.py` is not present in the source tree, but every constructor call
(`workflow.py`, `api/routes/tickets.py`, `agents/identity.py`) exhibits the
`obungi` fields plus an extra optional `original_message` back-reference,
so that field is included here. -/
structure TicketInput where
  message : Str
  name : Option Str := none
  vorname : Option Str := none
  email : Option Str := none
  original_message : Option Str := none
deriving DecidableEq, Repr

/-- Outbound dispatch payload (`dispatcher.py`). -/
structure DispatchPayload where
  name : Option Str
  vorname : Option Str
  email : Option Str
  kategorie : Option Str
  zusammenfassung : Option Str
  anfrage : Str
deriving DecidableEq, Repr

/-- `TicketContext` — mutable state flowing through the workflow. -/
structure TicketContext where
  original_message : Str
  name : Option Str := none
  vorname : Option Str := none
  email : Option Str := none
  category : Option TicketCategory := none
  summary : Option Str := none
  cleaned_request : Option Str := none
  response : Option Str := none
  dispatch_payload : Option DispatchPayload := none
deriving DecidableEq, Repr

/-- Values stored in a response metadata mapping. -/
inductive MetaVal where
  | b (v : Bool)
  | s (v : Str)
  | optS (v : Option Str)
  | strList (v : List Str)
  | payload (v : DispatchPayload)
  | optPayload (v : Option DispatchPayload)
deriving DecidableEq, Repr

abbrev Meta := List (Str × MetaVal)

/-- `TicketResponse` — the terminal response object. -/
structure TicketResponse where
  status : Str
  message : Str
  payload : Option DispatchPayload := none
  metadata : Meta := []
deriving DecidableEq, Repr

/-- Result of one executor stage: hand the context to the next stage
(`ctx.send_message`) or emit a terminal workflow output
(`ctx.yield_output`), which ends the run. -/
inductive StageOut where
  | sent (context : TicketContext)
  | yielded (response : TicketResponse)
deriving DecidableEq, Repr

/-! ## Dictionary operations

Python dicts keyed by strings, embedded as insertion-ordered association
lists with unique keys: lookup returns the first (only) binding, insertion
replaces in place or appends, deletion (`pop`) drops the key. -/

def dlookup (l : List (Str × α)) (k : Str) : Option α :=
  (l.find? (fun p => p.1 == k)).map Prod.snd

def dinsert (l : List (Str × α)) (k : Str) (v : α) : List (Str × α) :=
  if (l.find? (fun p => p.1 == k)).isSome then
    l.map (fun p => if p.1 == k then (k, v) else p)
  else l ++ [(k, v)]

def derase (l : List (Str × α)) (k : Str) : List (Str × α) :=
  l.filter (fun p => p.1 != k)

/-! ## Session/thread state store (`chat_agents_system/workflow.py`) -/

/-- One `_identity_state` entry:
`{"waiting_for_identity": bool, "original_message": str | None}`. -/
structure SessionState where
  waiting_for_identity : Bool
  original_message : Option Str
deriving DecidableEq, Repr

/-- The module-level mutable store: `_identity_state` (keyed by thread id)
and `_identity_state_by_message` (keyed by message fingerprint). -/
structure IdentityStore where
  byThread : List (Str × SessionState)
  byMessage : List (Str × SessionState)
deriving DecidableEq, Repr

def IdentityStore.empty : IdentityStore := ⟨[], []⟩

/-- The default "not waiting" state returned on a miss. -/
def defaultState : SessionState := ⟨false, none⟩

/-- `get_thread_state(thread_id, message)`.  `hash` abstracts
`_hash_message` (a truncated md5 digest).  Mirrors the source: a truthy
`thread_id` is looked up in `_identity_state`; otherwise a truthy
`message` is looked up by fingerprint in `_identity_state_by_message`, and
failing that the store is scanned for any waiting state (thread-keyed
entries first, in insertion order) — the deliberate DevUI fallback. -/
def get_thread_state (hash : Str → Str) (store : IdentityStore)
    (thread_id : Option Str) (message : Option Str) : SessionState :=
  let fromThread :=
    if truthy thread_id then dlookup store.byThread (thread_id.getD []) else none
  match fromThread with
  | some st => st
  | none =>
    if truthy message then
      match dlookup store.byMessage (hash (message.getD [])) with
      | some st => st
      | none =>
        match (store.byThread.map Prod.snd).find? (·.waiting_for_identity) with
        | some st => st
        | none =>
          match (store.byMessage.map Prod.snd).find? (·.waiting_for_identity) with
          | some st => st
          | none => defaultState
    else defaultState

/-- `set_thread_state(thread_id, waiting_for_identity, original_message)`:
parking stores a waiting entry under the thread id or, failing that, the
fingerprint of the original message; clearing pops the same key. -/
def set_thread_state (hash : Str → Str) (store : IdentityStore)
    (thread_id : Option Str) (waiting_for_identity : Bool)
    (original_message : Option Str) : IdentityStore :=
  if waiting_for_identity then
    let st : SessionState := ⟨true, original_message⟩
    if truthy thread_id then
      { store with byThread := dinsert store.byThread (thread_id.getD []) st }
    else if truthy original_message then
      { store with
        byMessage := dinsert store.byMessage (hash (original_message.getD [])) st }
    else store
  else
    if truthy thread_id then
      { store with byThread := derase store.byThread (thread_id.getD []) }
    else if truthy original_message then
      { store with byMessage := derase store.byMessage (hash (original_message.getD [])) }
    else store

/-! ## Validation stage (`agents/validation.py`, both package variants) -/

/-- `REQUIRED_FIELDS` iteration order with labels. -/
def requiredFields : List (Str × Str) :=
  [(str "name", str "Name"), (str "vorname", str "Vorname"),
   (str "email", str "E-Mail-Adresse")]

/-- Field accessor used by `getattr(context, attr)` for the three identity
attributes. -/
def identityField (context : TicketContext) (attr : Str) : Option Str :=
  if attr == str "name" then context.name
  else if attr == str "vorname" then context.vorname
  else context.email

/-- The required-but-absent attributes, in `REQUIRED_FIELDS` order
(an attribute is absent when its value is falsy: `None` or `""`). -/
def missingAttrs (context : TicketContext) : List Str :=
  (requiredFields.map Prod.fst).filter (fun attr => !truthy (identityField context attr))

def joinCommaSpace (l : List Str) : Str := List.intercalate (str ", ") l

/-- `chat_agents_system.agents.validation.ValidationExecutor.handle`:
if any field is missing it asks for the strict format and reports *all
three* fields in the metadata. -/
def chatValidationHandle (context : TicketContext) : StageOut :=
  let missing_attrs := missingAttrs context
  if missing_attrs.isEmpty then .sent context
  else
    .yielded
      { status := str "missing_identity"
        message := str "Bitte geben Sie Ihre Angaben im Format Name, Vorname, E-Mail-Adresse an. Beispiel: Müller, Hans, hans@example.com"
        metadata :=
          [(str "missing_fields", .strList (requiredFields.map Prod.fst)),
           (str "missing_labels", .strList (requiredFields.map Prod.snd))] }

/-- `obungi_chat_agents_system.agents.validation.ValidationExecutor.handle`:
reports exactly the missing attributes with their labels. -/
def obungiValidationHandle (context : TicketContext) : StageOut :=
  let missing_attrs := missingAttrs context
  let missing_labels := missing_attrs.map (fun attr =>
    ((requiredFields.find? (fun p => p.1 == attr)).map Prod.snd).getD [])
  if missing_attrs.isEmpty then .sent context
  else
    .yielded
      { status := str "missing_identity"
        message :=
          str "Bitte ergänzen Sie folgende Angaben, damit wir Ihr Ticket verarbeiten können: " ++
            joinCommaSpace missing_labels ++ str "."
        metadata :=
          [(str "missing_fields", .strList missing_attrs),
           (str "missing_labels", .strList missing_labels)] }

/-! ## Classifier adapter (`obungi .../agents/classification.py`) -/

/-- `ClassificationExecutor._map_category`: `None`/empty/unrecognized raw
labels resolve to `OTHER`; otherwise the first enum member whose canonical
label equals the stripped raw label case-insensitively. -/
def mapCategory (raw : Option Str) : TicketCategory :=
  if truthy raw then
    let r := pstrip (raw.getD [])
    match ticketCategories.find? (fun category => lowerStr category.value == lowerStr r) with
    | some category => category
    | none => .OTHER
  else .OTHER

/-! ## Dispatch adapter (`chat_agents_system/agents/dispatcher.py`) -/

/-- Outcome of the `httpx` POST: `ok` is any 2xx response; `error` covers
non-2xx statuses (`raise_for_status`), timeouts and transport errors — all
`httpx.HTTPError` — carrying `str(exc)`. -/
inductive TransportResult where
  | ok
  | error (detail : Str)
deriving DecidableEq, Repr

/-- `DispatcherExecutor.DISPATCHABLE`. -/
def DISPATCHABLE : List TicketCategory := [.AI_HISTORY, .O365, .HARDWARE, .LOGIN]

def dispatchSuccessMessage : Str :=
  str "Das Ticket wurde erfolgreich an das IT-Team übergeben. Du erhältst eine Rückmeldung per E-Mail."

/-- The outbound payload built by `DispatcherExecutor.handle`. -/
def buildPayload (context : TicketContext) : DispatchPayload :=
  { name := context.name
    vorname := context.vorname
    email := context.email
    kategorie := context.category.map TicketCategory.value
    zusammenfassung := context.summary
    anfrage := context.original_message }

/-- Whether `context.category in DISPATCHABLE`. -/
def isDispatchableCtx (context : TicketContext) : Bool :=
  match context.category with
  | some category => DISPATCHABLE.contains category
  | none => false

/-- `DispatcherExecutor.handle`, parameterized by the transport outcome.
In simulate mode no transport call is made; in live mode a transport
failure yields the terminal `dispatch_error` response with the error
detail and the failed payload in the metadata. -/
def dispatcherHandle (simulate_only : Bool) (transport : DispatchPayload → TransportResult)
    (context : TicketContext) : StageOut :=
  if !isDispatchableCtx context then .sent context
  else
    let payload := buildPayload context
    if simulate_only then
      .sent { context with
        dispatch_payload := some payload
        response := if truthy context.response then context.response
          else some dispatchSuccessMessage }
    else
      match transport payload with
      | .error exc =>
        .yielded
          { status := str "dispatch_error"
            message := str "Die Weiterleitung an das IT-Team ist fehlgeschlagen."
            metadata := [(str "error", .s exc), (str "payload", .payload payload)] }
      | .ok =>
        .sent { context with
          dispatch_payload := some payload
          response := if truthy context.response then context.response
            else some dispatchSuccessMessage }

/-! ## Historian (`obungi .../agents/historian.py`) -/

/-- `HistorianExecutor.handle`, parameterized by the text produced by the
answer-generation collaborator (`response.text`, possibly `None`). -/
def historianHandle (llmText : Option Str) (context : TicketContext) : StageOut :=
  if context.category != some .AI_HISTORY then .sent context
  else
    .sent { context with
      response := some (if truthy llmText then pstrip (llmText.getD []) else []) }

/-! ## Response formatter (`obungi .../agents/response_formatter.py`) -/

def formatterAckMessage : Str :=
  str "Deine Anfrage wurde aufgenommen. Wir melden uns so schnell wie möglich."

/-- `ResponseFormatterExecutor.handle`. -/
def formatterHandle (context : TicketContext) : TicketResponse :=
  let metadata : Meta :=
    [(str "category", .optS (context.category.map TicketCategory.value)),
     (str "summary", .optS context.summary),
     (str "dispatch_payload", .optPayload context.dispatch_payload)]
  if context.category == some .OTHER then
    { status := str "unsupported"
      message := str "Leider kann dieses System bei dieser Anfrage nicht helfen."
      metadata := metadata }
  else
    let response := if truthy context.response then context.response else some formatterAckMessage
    { status := str "completed"
      message := response.getD []
      payload := context.dispatch_payload
      metadata := metadata }

/-! ## Category routing (`chat_agents_system/workflow.py`, `create_ticket_workflow`) -/

/-- Nodes of the branching workflow graph. -/
inductive Node where
  | identity
  | validation
  | classification
  | historian
  | dispatcher
  | formatter
deriving DecidableEq, Repr

/-- Condition `is_ai_history`. -/
def is_ai_history (context : TicketContext) : Bool :=
  match context.category with
  | some category => category == .AI_HISTORY
  | none => false

/-- Condition `is_dispatchable` of the switch-case group
(`O365`, `HARDWARE`, `LOGIN`). -/
def is_dispatchable (context : TicketContext) : Bool :=
  match context.category with
  | some category => [TicketCategory.O365, .HARDWARE, .LOGIN].contains category
  | none => false

/-- The switch-case edge group after classification: the first matching
case wins, `Default` targets the formatter. -/
def classificationTarget (context : TicketContext) : Node :=
  if is_ai_history context then .historian
  else if is_dispatchable context then .dispatcher
  else .formatter

/-- The unconditional `add_edge` successors of each node
(`identity → validation → classification`, `historian → dispatcher`,
`dispatcher → formatter`). -/
def staticNext : Node → Option Node
  | .identity => some .validation
  | .validation => some .classification
  | .classification => none
  | .historian => some .dispatcher
  | .dispatcher => some .formatter
  | .formatter => none

/-- Walk the unconditional edges from a node (fuel bounds the walk by the
graph size). -/
def followAux : Nat → Node → List Node
  | 0, n => [n]
  | Nat.succ fuel, n =>
    n :: (match staticNext n with
          | some m => followAux fuel m
          | none => [])

def follow (n : Node) : List Node := followAux 6 n

/-- The nodes a context visits from classification onwards, per the built
workflow graph. -/
def pipelineTrace (context : TicketContext) : List Node :=
  .classification :: follow (classificationTarget context)

/-- Context with only a category, for category-level routing statements. -/
def ctxWithCategory (category : TicketCategory) : TicketContext :=
  { original_message := [], category := some category }

/-! ## Identity extractor, `chat_agents_system/agents/identity.py` -/

/-- The structured fragment parsed from the collaborator's reply
(`parse_json_response`).  `none` for the whole record models an exception
during the call or parse. -/
structure ParsedIdentity where
  name : Option Str := none
  vorname : Option Str := none
  email : Option Str := none
deriving DecidableEq, Repr

/-- Python `value.strip() or None`. -/
def stripOrNone (v : Str) : Option Str :=
  if (pstrip v).isEmpty then none else some (pstrip v)

/-- `IdentityExtractorExecutor.handle` of `chat_agents_system`,
parameterized by the delegated extraction outcome.  Every branch forwards
a context (`ctx.send_message`). -/
def chatIdentityHandle (llm : Str → Option ParsedIdentity)
    (ticket_input : TicketInput) : TicketContext :=
  let message := pstrip ticket_input.message
  if truthy ticket_input.original_message && !identityFormatMatch message then
    { original_message := ticket_input.original_message.getD []
      name := ticket_input.name
      vorname := ticket_input.vorname
      email := ticket_input.email }
  else
    let context : TicketContext :=
      { original_message := (orElseTruthy ticket_input.original_message (some message)).getD []
        name := ticket_input.name
        vorname := ticket_input.vorname
        email := ticket_input.email }
    if truthy context.name && truthy context.vorname && truthy context.email then context
    else
      match llm message with
      | none => context
      | some parsed =>
        let context :=
          if !truthy context.name && truthy parsed.name then
            { context with name := stripOrNone (parsed.name.getD []) }
          else context
        let context :=
          if !truthy context.vorname && truthy parsed.vorname then
            { context with vorname := stripOrNone (parsed.vorname.getD []) }
          else context
        let context :=
          if !truthy context.email && truthy parsed.email then
            { context with
              email := (emailSearch (pstrip (parsed.email.getD []))).map lowerStr }
          else context
        context

/-! ## Identity extractor, `obungi .../agents/identity.py`:
`_apply_regex_fallback` and its natural-language patterns -/

/-- The class `[A-Za-zÄÖÜäöüß]` of the German name patterns. -/
def isGermanLetter (c : Char) : Bool :=
  isAsciiAlpha c || (str "ÄÖÜäöüß").contains c

/-- Case-insensitive literal at the head of `l`; returns the rest. -/
def matchLit (lit : Str) (l : Str) : Option Str :=
  if lowerStr (l.take lit.length) == lowerStr lit then some (l.drop lit.length) else none

/-- `\s+` (maximal, at least one). -/
def matchSpaces1 (l : Str) : Option Str :=
  let sp := l.takeWhile isPySpace
  if sp.isEmpty then none else some (l.drop sp.length)

/-- `[A-Za-zÄÖÜäöüß]+` (maximal, at least one); returns (run, rest). -/
def matchGermanRun (l : Str) : Option (Str × Str) :=
  let run := l.takeWhile isGermanLetter
  if run.isEmpty then none else some (run, l.drop run.length)

/-- The trailing `(?:[,\s]|$)` of the name patterns. -/
def nameBoundaryOk : Str → Bool
  | [] => true
  | c :: _ => c == ',' || isPySpace c

/-- `(?P<vorname>[..]+)\s+(?P<name>[..]+)(?:[,\s]|$)`: the letter runs and
the whitespace are over disjoint classes, so the match is deterministic. -/
def matchVornameName (l : Str) : Option (Str × Str) :=
  match matchGermanRun l with
  | none => none
  | some (v, r) =>
    match matchSpaces1 r with
    | none => none
    | some r2 =>
      match matchGermanRun r2 with
      | none => none
      | some (n, r3) => if nameBoundaryOk r3 then some (v, n) else none

/-- First natural name pattern at one position:
`(?:mein\s+)?name\s+ist\s+(vorname)\s+(name)(?:[,\s]|$)` (IGNORECASE). -/
def natPattern1At (l : Str) : Option (Str × Str) :=
  let core := fun (l2 : Str) =>
    (matchLit (str "name") l2).bind fun r =>
    (matchSpaces1 r).bind fun r2 =>
    (matchLit (str "ist") r2).bind fun r3 =>
    (matchSpaces1 r3).bind matchVornameName
  match (matchLit (str "mein") l).bind (fun r => (matchSpaces1 r).bind core) with
  | some m => some m
  | none => core l

/-- Second natural name pattern at one position:
`ich\s+(?:heiße|bin)\s+(vorname)\s+(name)(?:[,\s]|$)` (IGNORECASE). -/
def natPattern2At (l : Str) : Option (Str × Str) :=
  (matchLit (str "ich") l).bind fun r =>
  (matchSpaces1 r).bind fun r2 =>
    match matchLit (str "heiße") r2 with
    | some r3 => (matchSpaces1 r3).bind matchVornameName
    | none =>
      (matchLit (str "bin") r2).bind fun r3 =>
      (matchSpaces1 r3).bind matchVornameName

/-- `pattern.search`: the match at the leftmost position admitting one. -/
def searchPat (p : Str → Option α) : Str → Option α
  | [] => p []
  | c :: rest =>
    match p (c :: rest) with
    | some m => some m
    | none => searchPat p rest

/-- Dot positions of the domain run eligible for
`[A-Z0-9.-]+\.[A-Z]{2,}`: `k ≥ 1`, a dot at `k`, two letters after. -/
def goodDots (r : Str) : List Nat :=
  (List.range r.length).filter fun k =>
    decide (1 ≤ k) && r.getD k ' ' == '.' &&
      isAsciiAlpha (r.getD (k + 1) ' ') && isAsciiAlpha (r.getD (k + 2) ' ') &&
      decide (k + 2 < r.length)

/-- The trailing `(?:[,\s\.]|$)` of the natural email pattern. -/
def emailBoundaryOk : Str → Bool
  | [] => true
  | c :: _ => c == ',' || c == '.' || isPySpace c

/-- The email group of the natural email pattern followed by its boundary,
at one position.  Backtracking is only possible over the dot choice, tried
from the last eligible dot downwards. -/
def natEmailGroupAt (l : Str) : Option Str :=
  let loc := l.takeWhile isLocalChar
  if loc.isEmpty then none
  else
    match l.drop loc.length with
    | '@' :: rest =>
      let dom := rest.takeWhile isDomainChar
      match (goodDots dom).reverse.find? (fun k =>
          let run := (dom.drop (k + 1)).takeWhile isAsciiAlpha
          emailBoundaryOk (rest.drop (k + 1 + run.length))) with
      | some k =>
        some (loc ++ '@' :: dom.take k ++ '.' :: (dom.drop (k + 1)).takeWhile isAsciiAlpha)
      | none => none
    | _ => none

/-- `(?:e-?mail|email)` (IGNORECASE). -/
def emailWordAt (l : Str) : Option Str :=
  (matchLit (str "e") l).bind fun r =>
    match r with
    | '-' :: rest => matchLit (str "mail") rest
    | _ => matchLit (str "mail") r

/-- Natural email pattern at one position:
`(?:meine\s+)?(?:e-?mail|email)\s+ist\s+(email)(?:[,\s\.]|$)` (IGNORECASE). -/
def natEmailPatternAt (l : Str) : Option Str :=
  let core := fun (l2 : Str) =>
    (emailWordAt l2).bind fun r =>
    (matchSpaces1 r).bind fun r2 =>
    (matchLit (str "ist") r2).bind fun r3 =>
    (matchSpaces1 r3).bind natEmailGroupAt
  match (matchLit (str "meine") l).bind (fun r => (matchSpaces1 r).bind core) with
  | some m => some m
  | none => core l

/-- Python `text.replace(pat, "")` for a non-empty `pat` (left-to-right,
non-overlapping); the fuel is the text length. -/
def replaceAllAux : Nat → Str → Str → Str
  | 0, l, _ => l
  | Nat.succ fuel, l, pat =>
    match l with
    | [] => []
    | c :: rest =>
      if !pat.isEmpty && pat.isPrefixOf l then replaceAllAux fuel (l.drop pat.length) pat
      else c :: replaceAllAux fuel rest pat

def replaceAll (l pat : Str) : Str := replaceAllAux l.length l pat

/-- Comma split of `_apply_regex_fallback`:
`[p.strip() for p in text.split(",") if p.strip()]`. -/
def splitStripFilter (text : Str) : List Str :=
  ((text.splitOn ',').map pstrip).filter (fun p => !p.isEmpty)

/-- One natural name pattern applied to the context (the loop body of the
`_NATURAL_NAME_PATTERNS` scan); the Bool is the loop's `break` condition
`context.vorname or context.name`. -/
def applyNamePattern (missing : List Str) (text : Str)
    (pat : Str → Option (Str × Str)) (context : TicketContext) :
    TicketContext × Bool :=
  match searchPat pat text with
  | none => (context, false)
  | some (v, n) =>
    let context :=
      if missing.contains (str "vorname") && !truthy context.vorname && !v.isEmpty then
        { context with vorname := some (pstrip v) }
      else context
    let context :=
      if missing.contains (str "name") && !truthy context.name && !n.isEmpty then
        { context with name := some (pstrip n) }
      else context
    (context, truthy context.vorname || truthy context.name)

/-- The `len(parts) != 3` branch of `_apply_regex_fallback`: natural
language patterns, then flexible comma extraction around the email. -/
def naturalFallback (context : TicketContext) (missing : List Str)
    (text : Str) (email_match : Option Str) : TicketContext :=
  let step1 := applyNamePattern missing text natPattern1At context
  let context := if step1.2 then step1.1 else (applyNamePattern missing text natPattern2At step1.1).1
  let context :=
    if missing.contains (str "email") && !truthy context.email then
      match searchPat natEmailPatternAt text with
      | some e => { context with email := some (lowerStr e) }
      | none => context
    else context
  match email_match with
  | none => context
  | some email_text =>
    if (missing.contains (str "name") && !truthy context.name) ||
        (missing.contains (str "vorname") && !truthy context.vorname) then
      let name_parts := splitStripFilter (pstrip (replaceAll text email_text))
      if 2 ≤ name_parts.length then
        let context :=
          if missing.contains (str "name") && !truthy context.name &&
              !(name_parts.getD 0 []).isEmpty then
            { context with name := some (name_parts.getD 0 []) }
          else context
        let context :=
          if missing.contains (str "vorname") && !truthy context.vorname &&
              1 < name_parts.length && !(name_parts.getD 1 []).isEmpty then
            { context with vorname := some (name_parts.getD 1 []) }
          else context
        context
      else context
    else context

/-- Strict-branch field assignment: `parts[i].strip() if parts[i] else ""`
guarded by `if val and not val.isspace()`. -/
def assignPart (context : TicketContext) (missing : List Str) (field : Str)
    (current : Option Str) (setter : TicketContext → Str → TicketContext)
    (part : Str) : TicketContext :=
  if missing.contains field && !truthy current then
    let val := pstrip part
    if !val.isEmpty && !val.all isPySpace then setter context val else context
  else context

/-- The `for i, part in enumerate(parts)` loop locating the first part in
which the email pattern matches (`email_index`, `none` for `-1`). -/
def firstEmailIdx : List Str → Option Nat
  | [] => none
  | p :: rest => if emailFound p then some 0 else (firstEmailIdx rest).map (· + 1)

/-- The leading email extraction of `_apply_regex_fallback` (search over
the whole text, assigned when the email field is missing). -/
def globalEmailStep (context : TicketContext) (missing : List Str) (text : Str) :
    TicketContext :=
  if (emailSearch text).isSome && missing.contains (str "email") then
    { context with email := (emailSearch text).map lowerStr }
  else context

/-- The strict three-part branch of `_apply_regex_fallback`: locate the
email part, extract it when still missing, and assign the two remaining
parts as surname-then-given-name in their original order. -/
def strictExtract (context : TicketContext) (missing : List Str)
    (parts : List Str) : TicketContext :=
  match firstEmailIdx parts with
  | none => context
  | some email_index =>
    let context :=
      if missing.contains (str "email") && !truthy context.email then
        { context with
          email := (emailSearch (parts.getD email_index [])).map lowerStr }
      else context
    let name_indices := (List.range 3).filter (fun i => i ≠ email_index)
    if name_indices.length ≠ 2 then context
    else if email_index == 2 then
      let context := assignPart context missing (str "name") context.name
        (fun c v => { c with name := some v }) (parts.getD 0 [])
      let context := assignPart context missing (str "vorname") context.vorname
        (fun c v => { c with vorname := some v }) (parts.getD 1 [])
      context
    else
      let context := assignPart context missing (str "name") context.name
        (fun c v => { c with name := some v }) (parts.getD (name_indices.getD 0 0) [])
      let context := assignPart context missing (str "vorname") context.vorname
        (fun c v => { c with vorname := some v }) (parts.getD (name_indices.getD 1 0) [])
      context

/-- `IdentityExtractorExecutor._apply_regex_fallback` of
`obungi_chat_agents_system`. -/
def applyRegexFallback (context : TicketContext) (missing : List Str)
    (text? : Option Str) : TicketContext :=
  if missing.isEmpty then context
  else
    let textA : Option Str :=
      match text? with
      | some t => some t
      | none =>
        if context.original_message.isEmpty then none
        else some (pstrip context.original_message)
    match textA with
    | none => context
    | some t0 =>
      let text := pstrip t0
      if text.isEmpty then context
      else
        let context := globalEmailStep context missing text
        let parts := splitStripFilter text
        if parts.length ≠ 3 then naturalFallback context missing text (emailSearch text)
        else strictExtract context missing parts

/-- The missing-field list as computed by the caller
(`handle`): the fields among name, vorname, email whose value is falsy. -/
def allIdentityFields : List Str := requiredFields.map Prod.fst

/-! ## Orchestrator entry points (`chat_agents_system/workflow.py`,
`chat_agents_system/api/routes/tickets.py`)

The workflow run is abstracted as `runWf : TicketInput → Option
TicketResponse` (`outputs[-1] if outputs else None`); the stages behind it
call the text-generation collaborator and are verified separately. -/

/-- The fixed rejection text repeated while waiting for identity. -/
def waitingReplyMessage : Str :=
  str "Bitte geben Sie Ihre Angaben im Format Name, Vorname, E-Mail-Adresse an. Beispiel: Müller, Hans, hans@example.com" ++
    str "\n\n" ++
    str "Ich kann Ihre Anfrage erst bearbeiten, nachdem Sie Ihre Identitätsinformationen im korrekten Format bereitgestellt haben."

/-- Result dictionary of the `process_ticket` function tool. -/
structure ProcResult where
  status : Str
  message : Str
  metadata : Meta := []
  payload : Option DispatchPayload := none
  is_historian_answer : Bool := false
deriving DecidableEq, Repr

/-- `metadata.get("category", "")` read back from a workflow response. -/
def getMetaCategory (m : Meta) : Option Str :=
  match dlookup m (str "category") with
  | some (.optS v) => v
  | some (.s v) => some v
  | _ => none

/-- The waiting determination at the head of the `process_ticket` tool:
with a truthy thread id the state of that thread is consulted, otherwise
the message-keyed lookup with its DevUI fallback.  Returns
`(waiting_for_identity, waiting_thread_state)`. -/
def waitingPair (hash : Str → Str) (store : IdentityStore)
    (thread_id : Option Str) (message : Str) : Bool × Option SessionState :=
  if truthy thread_id then
    let thread_state := get_thread_state hash store thread_id none
    if thread_state.waiting_for_identity then (true, some thread_state) else (false, none)
  else
    let thread_state := get_thread_state hash store none (some message)
    if thread_state.waiting_for_identity then (true, some thread_state) else (false, none)

/-- The `resolved_original_message` of a `process_ticket` run: when the
strict format matched while waiting, the preserved original message from
the session state is substituted for a falsy `original_message` argument. -/
def resolvedOriginal (hash : Str → Str) (store : IdentityStore)
    (message : Str) (original_message : Option Str) (thread_id : Option Str) :
    Option Str :=
  let wpair := waitingPair hash store thread_id message
  if identityFormatMatch (pstrip message) && wpair.1 && wpair.2.isSome then
    if !truthy original_message then wpair.2.bind SessionState.original_message
    else original_message
  else original_message

/-- `original_msg = resolved_original_message if resolved_original_message
else message`, the key under which a `process_ticket` run commits its
session-state transition. -/
def runOriginalMsg (hash : Str → Str) (store : IdentityStore)
    (message : Str) (original_message : Option Str) (thread_id : Option Str) : Str :=
  (orElseTruthy (resolvedOriginal hash store message original_message thread_id)
    (some message)).getD []

/-- The `process_ticket` function tool of
`chat_agents_system.workflow.create_conversational_agent`: strict-format
gate in front of the workflow, then session-state commit based on the
result status.  Returns the result dictionary and the updated store. -/
def process_ticket (hash : Str → Str) (runWf : TicketInput → Option TicketResponse)
    (message : Str) (original_message : Option Str) (thread_id : Option Str)
    (store : IdentityStore) : ProcResult × IdentityStore :=
  let message_stripped := pstrip message
  let is_identity_format := identityFormatMatch message_stripped
  let wpair := waitingPair hash store thread_id message
  let waiting_for_identity := wpair.1
  let waiting_thread_state := wpair.2
  if waiting_for_identity && !is_identity_format then
    ({ status := str "waiting_for_identity"
       message := waitingReplyMessage
       metadata :=
         [(str "waiting_for_identity", .b true),
          (str "original_message",
            .optS (waiting_thread_state.bind SessionState.original_message))] },
     store)
  else
    let resolved_original_message :=
      resolvedOriginal hash store message original_message thread_id
    let ticket_input : TicketInput :=
      { message := message
        original_message :=
          if truthy resolved_original_message then resolved_original_message else none }
    match runWf ticket_input with
    | none =>
      ({ status := str "error", message := str "Es konnte keine Antwort generiert werden." },
       store)
    | some result =>
      let category := getMetaCategory result.metadata
      let metadata :=
        if truthy resolved_original_message then
          dinsert result.metadata (str "original_message")
            (.s (resolved_original_message.getD []))
        else result.metadata
      let original_msg := runOriginalMsg hash store message original_message thread_id
      let store' :=
        if result.status == str "missing_identity" then
          set_thread_state hash store thread_id true (some original_msg)
        else if result.status == str "completed" then
          set_thread_state hash store thread_id false (some original_msg)
        else store
      ({ status := result.status
         message := result.message
         metadata := metadata
         payload := result.payload
         is_historian_answer :=
           category == some TicketCategory.AI_HISTORY.value &&
             result.status == str "completed" },
       store')

/-- Request model of `POST /tickets`. -/
structure TicketRequest where
  message : Str
  name : Option Str := none
  vorname : Option Str := none
  email : Option Str := none
  thread_id : Option Str := none
  simulate_dispatch : Bool := true
deriving DecidableEq, Repr

/-- Outcome of the route handler: a 200 response model, or a raised
`HTTPException`. -/
inductive ApiOut where
  | response (r : TicketResponse)
  | httpError (status_code : Nat) (detail : Str)
deriving DecidableEq, Repr

/-- `process_ticket` of `api/routes/tickets.py`: boundary rejection of a
bare identity string without a thread id, the waiting gate for parked
threads, the workflow run, and the thread-state commit. -/
def api_process_ticket (hash : Str → Str) (runWf : TicketInput → Option TicketResponse)
    (request : TicketRequest) (store : IdentityStore) : ApiOut × IdentityStore :=
  let message_stripped := pstrip request.message
  if !truthy request.thread_id && identityFormatMatch message_stripped then
    (.httpError 400
      (str "Identity follow-ups require the same thread_id provided in the previous missing_identity response. Resend the identity string with that thread_id."),
     store)
  else
    let gate : Option ApiOut × Option Str :=
      if truthy request.thread_id then
        let thread_state := get_thread_state hash store request.thread_id none
        if thread_state.waiting_for_identity then
          if identityFormatMatch (pstrip request.message) then
            (none, thread_state.original_message)
          else
            (some (.response
              { status := str "waiting_for_identity"
                message := waitingReplyMessage
                metadata :=
                  [(str "waiting_for_identity", .b true),
                   (str "original_message", .optS thread_state.original_message),
                   (str "thread_id", .optS request.thread_id)] }),
             none)
        else (none, none)
      else (none, none)
    match gate.1 with
    | some out => (out, store)
    | none =>
      let original_message := gate.2
      let ticket_input : TicketInput :=
        { message := request.message
          name := request.name
          vorname := request.vorname
          email := request.email
          original_message := original_message }
      match runWf ticket_input with
      | none => (.httpError 500 (str "Workflow did not produce any output"), store)
      | some result =>
        let original_msg := (orElseTruthy original_message (some request.message)).getD []
        let store' :=
          if truthy request.thread_id then
            if result.status == str "missing_identity" then
              set_thread_state hash store request.thread_id true (some original_msg)
            else
              set_thread_state hash store request.thread_id false (some original_msg)
          else store
        let response_metadata :=
          if truthy request.thread_id then
            dinsert result.metadata (str "thread_id") (.optS request.thread_id)
          else result.metadata
        (.response
          { status := result.status
            message := result.message
            payload := result.payload
            metadata := response_metadata },
         store')

/-- The dispatcher→formatter tail of the built workflow: when the
dispatcher yields a terminal output, the formatter stage never runs. -/
def dispatchThenFormat (simulate_only : Bool)
    (transport : DispatchPayload → TransportResult)
    (formatter : TicketContext → TicketResponse) (context : TicketContext) :
    TicketResponse :=
  match dispatcherHandle simulate_only transport context with
  | .yielded r => r
  | .sent c => formatter c

/-- Context with name and given name present but no email (validation
counterexample input). -/
def ctxEmailMissing : TicketContext :=
  { original_message := str "m"
    name := some (str "Müller")
    vorname := some (str "Hans") }

/-- A concrete dispatchable login ticket context. -/
def ctxLoginTicket : TicketContext :=
  { original_message := str "Login geht nicht"
    name := some (str "Müller")
    vorname := some (str "Hans")
    email := some (str "hans@example.com")
    category := some TicketCategory.LOGIN
    summary := some (str "Login Problem") }

/-- A concrete history-question context with complete identity. -/
def ctxHistoryQuestion : TicketContext :=
  { original_message := str "Wer war der erste Chatbot?"
    name := some (str "Müller")
    vorname := some (str "Hans")
    email := some (str "hans@example.com")
    category := some TicketCategory.AI_HISTORY }

/-- The context after a stage stores response text `a`. -/
def withResponse (context : TicketContext) (a : Str) : TicketContext :=
  { context with response := some a }

/-- The context after a successful (or simulated) dispatch records the
payload; the response is left as it was when already truthy. -/
def afterDispatch (context : TicketContext) : TicketContext :=
  { context with dispatch_payload := some (buildPayload context) }

/-! ## Helper lemmas -/

theorem head?_dropWhile_false (p : Char → Bool) (l : Str) (a : Char)
    (h : (l.dropWhile p).head? = some a) : p a = false := by
  induction l with
  | nil => simp [List.dropWhile] at h
  | cons c t ih =>
    by_cases hc : p c
    · rw [List.dropWhile_cons_of_pos hc] at h
      exact ih h
    · rw [List.dropWhile_cons_of_neg hc] at h
      simp only [List.head?_cons, Option.some.injEq] at h
      subst h
      exact Bool.eq_false_iff.mpr hc

theorem dropWhile_eq_self_of_head (p : Char → Bool) (l : Str)
    (h : ∀ a, l.head? = some a → p a = false) : l.dropWhile p = l := by
  cases l with
  | nil => rfl
  | cons c t => exact List.dropWhile_cons_of_neg (by simp [h c rfl])

theorem dropWhile_idem (p : Char → Bool) (l : Str) :
    (l.dropWhile p).dropWhile p = l.dropWhile p :=
  dropWhile_eq_self_of_head p _ (fun a ha => head?_dropWhile_false p l a ha)

theorem pstrip_reverse_eq (l : Str) :
    (pstrip l).reverse = ((l.dropWhile isPySpace).reverse).dropWhile isPySpace := by
  simp [pstrip]

theorem pstrip_head?_false (l : Str) (a : Char)
    (h : (pstrip l).head? = some a) : isPySpace a = false := by
  have hpre : pstrip l <+: l.dropWhile isPySpace := by
    have hsuf : ((l.dropWhile isPySpace).reverse).dropWhile isPySpace <:+
        (l.dropWhile isPySpace).reverse := List.dropWhile_suffix _
    have := List.reverse_prefix.mpr hsuf
    simpa [pstrip] using this
  obtain ⟨t, ht⟩ := hpre
  have hm : (l.dropWhile isPySpace).head? = some a := by
    cases hp : pstrip l with
    | nil => rw [hp] at h; simp at h
    | cons c u =>
      rw [hp] at h ht
      simp only [List.head?_cons, Option.some.injEq] at h
      rw [← ht]
      simp [h]
  exact head?_dropWhile_false isPySpace l a hm

theorem pstrip_dropWhile (l : Str) : (pstrip l).dropWhile isPySpace = pstrip l :=
  dropWhile_eq_self_of_head _ _ (pstrip_head?_false l)

theorem pstrip_idem (l : Str) : pstrip (pstrip l) = pstrip l := by
  conv_lhs => rw [pstrip, pstrip_dropWhile, pstrip_reverse_eq, dropWhile_idem]
  rw [pstrip]

theorem dlookup_derase (l : List (Str × α)) (k : Str) : dlookup (derase l k) k = none := by
  induction l with
  | nil => rfl
  | cons hd t ih =>
    obtain ⟨k1, v1⟩ := hd
    by_cases hk : k1 = k
    · subst hk
      simpa [derase, List.filter_cons] using ih
    · have h2 : (k1 == k) = false := by simpa using hk
      have h3 : (k1 != k) = true := by simp [bne, h2]
      simp only [derase, List.filter_cons, h3, if_true]
      simp only [dlookup, List.find?_cons, h2]
      simp only [derase, dlookup] at ih
      simp [ih]

theorem mem_splitStripFilter (t p : Str) (h : p ∈ splitStripFilter t) :
    p.isEmpty = false ∧ pstrip p = p := by
  unfold splitStripFilter at h
  obtain ⟨hmem, hne⟩ := List.mem_filter.mp h
  obtain ⟨q, _, rfl⟩ := List.mem_map.mp hmem
  exact ⟨by simpa using hne, pstrip_idem q⟩

/-- The original message recorded in the context by the chat identity
extractor, in every branch. -/
theorem chatIdentityHandle_original (llm : Str → Option ParsedIdentity)
    (ticket_input : TicketInput) :
    (chatIdentityHandle llm ticket_input).original_message =
      (if truthy ticket_input.original_message &&
          !identityFormatMatch (pstrip ticket_input.message) then
        ticket_input.original_message.getD []
      else
        (orElseTruthy ticket_input.original_message
          (some (pstrip ticket_input.message))).getD []) := by
  cases h1 : truthy ticket_input.original_message &&
      !identityFormatMatch (pstrip ticket_input.message) with
  | true => simp [chatIdentityHandle, h1]
  | false =>
    simp only [chatIdentityHandle, h1, Bool.false_eq_true, if_false]
    split
    · rfl
    · cases llm (pstrip ticket_input.message) with
      | none => rfl
      | some parsed =>
        dsimp only
        split <;> split <;> split <;> rfl

/-! ## Claim theorems -/

/-- C5: the category routing is total and deterministic over the closed
enumeration: the history-question category goes to answer generation and
then always continues into dispatch, the O365/hardware/login categories go
directly to dispatch, and the other category exits early to the formatter
without ever reaching answer generation or dispatch; the two switch
conditions are mutually exclusive on every context. -/
theorem C5_router_totality :
    (classificationTarget (ctxWithCategory .AI_HISTORY) = .historian) ∧
    (classificationTarget (ctxWithCategory .O365) = .dispatcher) ∧
    (classificationTarget (ctxWithCategory .HARDWARE) = .dispatcher) ∧
    (classificationTarget (ctxWithCategory .LOGIN) = .dispatcher) ∧
    (classificationTarget (ctxWithCategory .OTHER) = .formatter) ∧
    (∀ context : TicketContext, (is_ai_history context && is_dispatchable context) = false) ∧
    staticNext .historian = some .dispatcher ∧
    DISPATCHABLE.contains .AI_HISTORY = true ∧
    pipelineTrace (ctxWithCategory .AI_HISTORY) =
      [.classification, .historian, .dispatcher, .formatter] ∧
    pipelineTrace (ctxWithCategory .O365) = [.classification, .dispatcher, .formatter] ∧
    pipelineTrace (ctxWithCategory .HARDWARE) = [.classification, .dispatcher, .formatter] ∧
    pipelineTrace (ctxWithCategory .LOGIN) = [.classification, .dispatcher, .formatter] ∧
    pipelineTrace (ctxWithCategory .OTHER) = [.classification, .formatter] ∧
    ((pipelineTrace (ctxWithCategory .OTHER)).contains .historian = false) ∧
    ((pipelineTrace (ctxWithCategory .OTHER)).contains .dispatcher = false) := by
  refine ⟨by decide, by decide, by decide, by decide, by decide, ?_, by decide, by decide,
    by decide, by decide, by decide, by decide, by decide, by decide, by decide⟩
  intro context
  cases h : context.category with
  | none => simp [is_ai_history, is_dispatchable, h]
  | some category => cases category <;> simp [is_ai_history, is_dispatchable, h]

/-- C9 counterexample: the raw label `" o365 frage "` is not
case-insensitively equal to any of the five canonical labels (it carries
surrounding whitespace), yet the mapping resolves it to `O365`, not
`OTHER`, because the code strips the raw label before comparing. -/
theorem C9_map_category_counterexample :
    mapCategory (some (str " o365 frage ")) = TicketCategory.O365 ∧
    TicketCategory.O365 ≠ TicketCategory.OTHER ∧
    (ticketCategories.all fun category =>
      lowerStr (str " o365 frage ") != lowerStr category.value) = true := by decide

/-- C9 (amended): `_map_category` is total (never raises, by construction);
`None` and the empty string resolve to `OTHER`; a raw label whose
whitespace-stripped form equals a canonical label case-insensitively
resolves to that member; any raw label matching no canonical label after
stripping resolves to `OTHER`. -/
theorem C9_map_category_total :
    (mapCategory none = TicketCategory.OTHER) ∧
    (mapCategory (some []) = TicketCategory.OTHER) ∧
    (∀ s : Str, ∀ category : TicketCategory,
      lowerStr (pstrip s) = lowerStr category.value →
      mapCategory (some s) = category) ∧
    (∀ s : Str,
      (ticketCategories.all fun category =>
        lowerStr (pstrip s) != lowerStr category.value) = true →
      mapCategory (some s) = TicketCategory.OTHER) := by
  refine ⟨by decide, by decide, ?_, ?_⟩
  · intro s category h
    have hs : s.isEmpty = false := by
      cases hs : s.isEmpty
      · rfl
      · exfalso
        have hnil : s = [] := by simpa using hs
        rw [hnil] at h
        cases category <;> exact absurd h (by decide)
    unfold mapCategory
    have ht : truthy (some s) = true := by simp [truthy, hs]
    simp only [ht, if_true, Option.getD_some, h]
    cases category <;> decide
  · intro s hall
    by_cases hs : s.isEmpty = true
    · have hnil : s = [] := by simpa using hs
      subst hnil
      decide
    · unfold mapCategory
      have ht : truthy (some s) = true := by simp [truthy]; simpa using hs
      simp only [ht, if_true, Option.getD_some]
      have hnone : ticketCategories.find?
          (fun category => lowerStr category.value == lowerStr (pstrip s)) = none := by
        rw [List.find?_eq_none]
        intro x hx
        have hx' := List.all_eq_true.mp hall x hx
        simp only [bne_iff_ne, ne_eq] at hx'
        simp only [beq_eq_false_iff_ne, ne_eq, Bool.not_eq_true]
        exact fun hh => hx' hh.symm
      rw [hnone]

/-- C9 witness: a mixed-case canonical label resolves to its member and an
unrecognized label resolves to `OTHER`, by the amended theorem. -/
theorem C9_map_category_witness :
    mapCategory (some (str "o365 frage")) = TicketCategory.O365 ∧
    mapCategory (some (str "kaffee bitte")) = TicketCategory.OTHER := by
  have h := C9_map_category_total
  exact ⟨h.2.2.1 (str "o365 frage") TicketCategory.O365 (by decide),
    h.2.2.2 (str "kaffee bitte") (by decide)⟩

/-- C6 counterexample: the key (fingerprint of "unrelated") is not present
in the store, yet the message-based lookup returns another session's
waiting state instead of the default, through the deliberate DevUI
any-waiting fallback scan. -/
theorem C6_lookup_counterexample :
    dlookup (IdentityStore.byMessage ⟨[(str "t1", ⟨true, some (str "m")⟩)], []⟩)
      (str "unrelated") = none ∧
    get_thread_state (fun m => m) ⟨[(str "t1", ⟨true, some (str "m")⟩)], []⟩
      none (some (str "unrelated")) = ⟨true, some (str "m")⟩ ∧
    (⟨true, some (str "m")⟩ : SessionState) ≠ defaultState := by decide

/-- C6 (amended): a lookup never errors (the embedding is a total
function); a lookup by a truthy thread key misses to the default state
regardless of the other entries; a message-keyed lookup misses to the
default state provided no waiting entry is stored anywhere — otherwise the
DevUI fallback returns that waiting state. -/
theorem C6_lookup_miss (hash : Str → Str) (store : IdentityStore) :
    (∀ t : Str, t.isEmpty = false → dlookup store.byThread t = none →
      get_thread_state hash store (some t) none = defaultState) ∧
    (∀ m : Str, dlookup store.byMessage (hash m) = none →
      (store.byThread.map Prod.snd).find? (fun st => st.waiting_for_identity) = none →
      (store.byMessage.map Prod.snd).find? (fun st => st.waiting_for_identity) = none →
      get_thread_state hash store none (some m) = defaultState) := by
  constructor
  · intro t ht hmiss
    simp [get_thread_state, truthy, ht, hmiss]
  · intro m h1 h2 h3
    by_cases hm : m.isEmpty = true
    · simp [get_thread_state, truthy, hm]
    · have hm' : m.isEmpty = false := by simpa using hm
      simp [get_thread_state, truthy, hm', h1, h2, h3]

/-- C6 witness: a concrete miss on a thread key returns the default
state even though another thread is parked waiting. -/
theorem C6_lookup_miss_witness :
    get_thread_state (fun m => m) ⟨[(str "t1", ⟨true, some (str "x")⟩)], []⟩
      (some (str "t2")) none = defaultState :=
  (C6_lookup_miss (fun m => m) ⟨[(str "t1", ⟨true, some (str "x")⟩)], []⟩).1
    (str "t2") (by decide) (by decide)

/-- C1: while a session is flagged waiting for identity, any inbound
message whose trimmed text does not match the strict format yields a
terminal `waiting_for_identity` response (never `completed`), the workflow
pipeline is not run (the outcome is independent of the workflow function),
and the stored session state is unchanged — both in the conversational
`process_ticket` tool and, for thread-keyed sessions, in the API route. -/
theorem C1_strict_format_gate (hash : Str → Str)
    (f g : TicketInput → Option TicketResponse) (store : IdentityStore)
    (message : Str) (original_message : Option Str) (thread_id : Option Str)
    (hwait : (waitingPair hash store thread_id message).1 = true)
    (hfmt : identityFormatMatch (pstrip message) = false) :
    (process_ticket hash f message original_message thread_id store).1.status =
      str "waiting_for_identity" ∧
    (process_ticket hash f message original_message thread_id store).1.status ≠
      str "completed" ∧
    (process_ticket hash f message original_message thread_id store).2 = store ∧
    process_ticket hash f message original_message thread_id store =
      process_ticket hash g message original_message thread_id store ∧
    (∀ n v e : Option Str, ∀ simulate : Bool, truthy thread_id = true →
      (api_process_ticket hash f ⟨message, n, v, e, thread_id, simulate⟩ store).2 = store ∧
      (∃ r, (api_process_ticket hash f ⟨message, n, v, e, thread_id, simulate⟩ store).1 =
          .response r ∧
        r.status = str "waiting_for_identity" ∧ r.status ≠ str "completed") ∧
      api_process_ticket hash f ⟨message, n, v, e, thread_id, simulate⟩ store =
        api_process_ticket hash g ⟨message, n, v, e, thread_id, simulate⟩ store) := by
  have hred : ∀ fx : TicketInput → Option TicketResponse,
      process_ticket hash fx message original_message thread_id store =
        ({ status := str "waiting_for_identity"
           message := waitingReplyMessage
           metadata :=
             [(str "waiting_for_identity", .b true),
              (str "original_message",
                .optS ((waitingPair hash store thread_id message).2.bind
                  SessionState.original_message))] }, store) := by
    intro fx
    simp [process_ticket, hwait, hfmt]
  refine ⟨?_, ?_, ?_, ?_, ?_⟩
  · rw [hred f]
  · rw [hred f]
    show str "waiting_for_identity" ≠ str "completed"
    decide
  · rw [hred f]
  · rw [hred f, hred g]
  · intro n v e simulate htid
    have hst : (get_thread_state hash store thread_id none).waiting_for_identity = true := by
      unfold waitingPair at hwait
      simp only [htid, if_true] at hwait
      by_cases h : (get_thread_state hash store thread_id none).waiting_for_identity = true
      · exact h
      · simp [h] at hwait
    have hared : ∀ fx : TicketInput → Option TicketResponse,
        api_process_ticket hash fx ⟨message, n, v, e, thread_id, simulate⟩ store =
          (.response
            { status := str "waiting_for_identity"
              message := waitingReplyMessage
              metadata :=
                [(str "waiting_for_identity", .b true),
                 (str "original_message",
                   .optS (get_thread_state hash store thread_id none).original_message),
                 (str "thread_id", .optS thread_id)] }, store) := by
      intro fx
      simp [api_process_ticket, htid, hst, hfmt]
    refine ⟨?_, ?_, ?_⟩
    · rw [hared f]
    · rw [hared f]
      refine ⟨_, rfl, rfl, ?_⟩
      show str "waiting_for_identity" ≠ str "completed"
      decide
    · rw [hared f, hared g]

/-- C1 witness: a parked thread `T1`, an inbound `"Ich brauche einen
Laptop"`: the tool repeats the waiting prompt and leaves the store
untouched, via the gate theorem. -/
theorem C1_strict_format_gate_witness :
    (waitingPair (fun m => m) ⟨[(str "T1", ⟨true, some (str "Login kaputt")⟩)], []⟩
      (some (str "T1")) (str "Ich brauche einen Laptop")).1 = true ∧
    identityFormatMatch (pstrip (str "Ich brauche einen Laptop")) = false ∧
    (process_ticket (fun m => m) (fun _ => none) (str "Ich brauche einen Laptop") none
      (some (str "T1")) ⟨[(str "T1", ⟨true, some (str "Login kaputt")⟩)], []⟩).1.status =
      str "waiting_for_identity" ∧
    (process_ticket (fun m => m) (fun _ => none) (str "Ich brauche einen Laptop") none
      (some (str "T1")) ⟨[(str "T1", ⟨true, some (str "Login kaputt")⟩)], []⟩).2 =
      ⟨[(str "T1", ⟨true, some (str "Login kaputt")⟩)], []⟩ := by
  have h := C1_strict_format_gate (fun m => m) (fun _ => none)
    (fun _ => some ⟨str "completed", str "ok", none, []⟩)
    ⟨[(str "T1", ⟨true, some (str "Login kaputt")⟩)], []⟩
    (str "Ich brauche einen Laptop") none (some (str "T1")) (by decide) (by decide)
  exact ⟨by decide, by decide, h.1, h.2.2.1⟩

/-- C4 counterexample: with only the email absent, the
`chat_agents_system` validation stage reports all three fields in
`missing_fields`, not exactly the absent set `["email"]`. -/
theorem C4_validation_counterexample :
    missingAttrs ctxEmailMissing = [str "email"] ∧
    (match chatValidationHandle ctxEmailMissing with
     | .yielded r => dlookup r.metadata (str "missing_fields")
     | .sent _ => none) = some (.strList [str "name", str "vorname", str "email"]) ∧
    ([str "name", str "vorname", str "email"] : List Str) ≠ [str "email"] := by decide

/-- C4 (amended): when all three identity fields are present both
validation variants pass the context through unchanged; when any is
absent, the `obungi` variant yields a `missing_identity` response listing
exactly the absent fields with their labels, while the
`chat_agents_system` variant always lists all three fields and labels. -/
theorem C4_validation_fields (context : TicketContext) :
    (missingAttrs context = [] →
      obungiValidationHandle context = .sent context ∧
      chatValidationHandle context = .sent context) ∧
    (missingAttrs context ≠ [] →
      ∃ r, obungiValidationHandle context = .yielded r ∧
        r.status = str "missing_identity" ∧
        dlookup r.metadata (str "missing_fields") = some (.strList (missingAttrs context)) ∧
        dlookup r.metadata (str "missing_labels") =
          some (.strList ((missingAttrs context).map (fun attr =>
            ((requiredFields.find? (fun p => p.1 == attr)).map Prod.snd).getD [])))) ∧
    (missingAttrs context ≠ [] →
      ∃ r, chatValidationHandle context = .yielded r ∧
        r.status = str "missing_identity" ∧
        dlookup r.metadata (str "missing_fields") = some (.strList allIdentityFields) ∧
        dlookup r.metadata (str "missing_labels") =
          some (.strList (requiredFields.map Prod.snd))) := by
  refine ⟨?_, ?_, ?_⟩
  · intro h
    have he : (missingAttrs context).isEmpty = true := by simp [h]
    constructor
    · simp [obungiValidationHandle, he]
    · simp [chatValidationHandle, he]
  · intro h
    have hne : (missingAttrs context).isEmpty = false := by
      cases h2 : (missingAttrs context).isEmpty
      · rfl
      · exact absurd (by simpa using h2) h
    simp only [obungiValidationHandle, hne, Bool.false_eq_true, if_false]
    exact ⟨_, rfl, rfl, rfl, rfl⟩
  · intro h
    have hne : (missingAttrs context).isEmpty = false := by
      cases h2 : (missingAttrs context).isEmpty
      · rfl
      · exact absurd (by simpa using h2) h
    simp only [chatValidationHandle, hne, Bool.false_eq_true, if_false]
    exact ⟨_, rfl, rfl, rfl, rfl⟩

/-- C4 witness: with only the email absent the obungi validation stage
reports exactly `["email"]` with its label, by the amended theorem. -/
theorem C4_validation_fields_witness :
    ∃ r, obungiValidationHandle ctxEmailMissing = .yielded r ∧
      r.status = str "missing_identity" ∧
      dlookup r.metadata (str "missing_fields") =
        some (.strList (missingAttrs ctxEmailMissing)) ∧
      dlookup r.metadata (str "missing_labels") =
        some (.strList ((missingAttrs ctxEmailMissing).map (fun attr =>
          ((requiredFields.find? (fun p => p.1 == attr)).map Prod.snd).getD []))) :=
  (C4_validation_fields ctxEmailMissing).2.1 (by decide)

/-- C8: in live mode a transport failure makes the dispatch stage yield
the terminal `dispatch_error` response carrying the error detail and the
failed payload, and the run does not continue to the formatter; in
simulate mode the outcome is independent of the transport and the payload
is recorded on the context. -/
theorem C8_dispatch_error (transport transport2 : DispatchPayload → TransportResult)
    (context : TicketContext) (detail : Str)
    (hdisp : isDispatchableCtx context = true)
    (hfail : transport (buildPayload context) = .error detail) :
    dispatcherHandle false transport context =
      .yielded { status := str "dispatch_error"
                 message := str "Die Weiterleitung an das IT-Team ist fehlgeschlagen."
                 metadata := [(str "error", .s detail),
                              (str "payload", .payload (buildPayload context))] } ∧
    (∀ formatter : TicketContext → TicketResponse,
      dispatchThenFormat false transport formatter context =
        { status := str "dispatch_error"
          message := str "Die Weiterleitung an das IT-Team ist fehlgeschlagen."
          metadata := [(str "error", .s detail),
                       (str "payload", .payload (buildPayload context))] }) ∧
    dispatcherHandle true transport context = dispatcherHandle true transport2 context ∧
    (∃ c, dispatcherHandle true transport context = .sent c ∧
      c.dispatch_payload = some (buildPayload context)) := by
  refine ⟨?_, ?_, ?_, ?_⟩
  · simp [dispatcherHandle, hdisp, hfail]
  · intro formatter
    simp [dispatchThenFormat, dispatcherHandle, hdisp, hfail]
  · simp [dispatcherHandle, hdisp]
  · have hstep : ∀ resp : Option Str,
        (if truthy context.response then context.response else resp) = context.response ∨
        (if truthy context.response then context.response else resp) = resp := by
      intro resp
      by_cases ht : truthy context.response = true
      · exact Or.inl (by simp [ht])
      · exact Or.inr (by simp [ht])
    simp only [dispatcherHandle, hdisp, Bool.not_true, Bool.false_eq_true, if_false, if_true]
    exact ⟨_, rfl, rfl⟩

/-- C8 witness: a concrete dispatchable login ticket whose transport
times out is answered with `dispatch_error` and the failed payload, by
the dispatch theorem. -/
theorem C8_dispatch_error_witness :
    isDispatchableCtx ctxLoginTicket = true ∧
    dispatcherHandle false (fun _ => .error (str "timeout")) ctxLoginTicket =
      .yielded { status := str "dispatch_error"
                 message := str "Die Weiterleitung an das IT-Team ist fehlgeschlagen."
                 metadata := [(str "error", .s (str "timeout")),
                              (str "payload", .payload (buildPayload ctxLoginTicket))] } := by
  have h := C8_dispatch_error (fun _ => .error (str "timeout")) (fun _ => .ok)
    ctxLoginTicket (str "timeout") (by decide) rfl
  exact ⟨by decide, h.1⟩

/-- C10: a non-empty response already on the context is preserved by the
dispatcher (simulate mode and live success) and returned verbatim by the
formatter as the `completed` message for non-OTHER categories; in
particular a non-empty historian answer flows through dispatch and
formatting unchanged. -/
theorem C10_response_preservation (transport : DispatchPayload → TransportResult)
    (context : TicketContext) (r : Str)
    (hr : context.response = some r) (hne : r ≠ []) :
    (∃ c, dispatcherHandle true transport context = .sent c ∧ c.response = some r) ∧
    (transport (buildPayload context) = .ok →
      ∃ c, dispatcherHandle false transport context = .sent c ∧ c.response = some r) ∧
    (context.category ≠ some TicketCategory.OTHER →
      (formatterHandle context).status = str "completed" ∧
      (formatterHandle context).message = r) ∧
    (∀ (llmText : Str) (ctx0 : TicketContext),
      ctx0.category = some TicketCategory.AI_HISTORY → pstrip llmText ≠ [] →
      ∃ ctx1 ctx2, historianHandle (some llmText) ctx0 = .sent ctx1 ∧
        dispatcherHandle true transport ctx1 = .sent ctx2 ∧
        (formatterHandle ctx2).status = str "completed" ∧
        (formatterHandle ctx2).message = pstrip llmText) := by
  have htr : truthy context.response = true := by
    rw [hr]
    simpa [truthy] using hne
  refine ⟨?_, ?_, ?_, ?_⟩
  · cases hd : isDispatchableCtx context with
    | false =>
      refine ⟨context, ?_, hr⟩
      simp [dispatcherHandle, hd]
    | true =>
      refine ⟨afterDispatch context, ?_, ?_⟩
      · simp [dispatcherHandle, hd, htr, afterDispatch]
      · simpa [afterDispatch] using hr
  · intro hok
    cases hd : isDispatchableCtx context with
    | false =>
      refine ⟨context, ?_, hr⟩
      simp [dispatcherHandle, hd]
    | true =>
      refine ⟨afterDispatch context, ?_, ?_⟩
      · simp [dispatcherHandle, hd, hok, htr, afterDispatch]
      · simpa [afterDispatch] using hr
  · intro hcat
    have hb : (context.category == some TicketCategory.OTHER) = false := by
      simpa using hcat
    have htrr : truthy (some r) = true := by simpa [truthy] using hne
    constructor
    · simp [formatterHandle, hb]
    · simp [formatterHandle, hb, hr, htrr]
  · intro llmText ctx0 hcat hstrip
    have hne0 : llmText ≠ [] := fun he => hstrip (by simp [he, pstrip])
    have hlt : truthy (some llmText) = true := by simpa [truthy] using hne0
    have htr1 : truthy (some (pstrip llmText)) = true := by simpa [truthy] using hstrip
    have hd1 : isDispatchableCtx (withResponse ctx0 (pstrip llmText)) = true := by
      simp [isDispatchableCtx, withResponse, hcat, DISPATCHABLE]
    refine ⟨withResponse ctx0 (pstrip llmText),
      afterDispatch (withResponse ctx0 (pstrip llmText)), ?_, ?_, ?_, ?_⟩
    · simp [historianHandle, hcat, hlt, withResponse]
    · simp only [dispatcherHandle, hd1, Bool.not_true, Bool.false_eq_true, if_false, if_true]
      simp [withResponse, afterDispatch, htr1]
    · simp [formatterHandle, afterDispatch, withResponse, hcat, htr1]
    · simp [formatterHandle, afterDispatch, withResponse, hcat, htr1]

/-- C10 witness: a concrete historian answer survives simulate dispatch
and is returned verbatim as the completed message, by the preservation
theorem. -/
theorem C10_response_preservation_witness :
    ∃ ctx1 ctx2,
      historianHandle (some (str "ELIZA war 1966 der erste Chatbot."))
        ctxHistoryQuestion = .sent ctx1 ∧
      dispatcherHandle true (fun _ => .ok) ctx1 = .sent ctx2 ∧
      (formatterHandle ctx2).status = str "completed" ∧
      (formatterHandle ctx2).message = pstrip (str "ELIZA war 1966 der erste Chatbot.") :=
  (C10_response_preservation (fun _ => .ok)
    { original_message := str "x", response := some (str "fertig") }
    (str "fertig") rfl (by decide)).2.2.2
    (str "ELIZA war 1966 der erste Chatbot.") ctxHistoryQuestion rfl (by decide)

/-- C2 counterexample: a parked original message carrying a leading space
is restored verbatim by the resumption path, while a fresh run with the
same message trims it, so the two context original messages differ. -/
theorem C2_resumption_counterexample :
    (chatIdentityHandle (fun _ => none)
      { message := str "Schmidt, Anna, anna@x.com"
        original_message := some (str " Ich komme nicht rein") }).original_message =
      str " Ich komme nicht rein" ∧
    (chatIdentityHandle (fun _ => none)
      { message := str " Ich komme nicht rein"
        name := some (str "Schmidt")
        vorname := some (str "Anna")
        email := some (str "anna@x.com") }).original_message =
      str "Ich komme nicht rein" ∧
    str " Ich komme nicht rein" ≠ str "Ich komme nicht rein" := by decide

/-- C2 (amended): for a parked non-empty original message M and a strict
identity reply R, the resumption path restores exactly M as the context's
original message; a fresh run of M with the identity fields pre-populated
records the trimmed M; the two coincide exactly when M is already
trimmed. -/
theorem C2_resumption_original (llm llm2 : Str → Option ParsedIdentity)
    (M R : Str) (n v e : Option Str)
    (hM : M ≠ []) (hR : identityFormatMatch (pstrip R) = true)
    (_hn : truthy n = true) (_hv : truthy v = true) (_he : truthy e = true) :
    (chatIdentityHandle llm
      { message := R, original_message := some M }).original_message = M ∧
    (chatIdentityHandle llm2
      { message := M, name := n, vorname := v, email := e }).original_message = pstrip M ∧
    (pstrip M = M →
      (chatIdentityHandle llm
        { message := R, original_message := some M }).original_message =
      (chatIdentityHandle llm2
        { message := M, name := n, vorname := v, email := e }).original_message) := by
  have hMt : truthy (some M) = true := by simpa [truthy] using hM
  have h1 : (chatIdentityHandle llm
      { message := R, original_message := some M }).original_message = M := by
    rw [chatIdentityHandle_original]
    simp [hR, hMt, orElseTruthy]
  have h2 : (chatIdentityHandle llm2
      { message := M, name := n, vorname := v, email := e }).original_message = pstrip M := by
    rw [chatIdentityHandle_original]
    simp [truthy, orElseTruthy]
  exact ⟨h1, h2, fun hps => by rw [h1, h2, hps]⟩

/-- C2 witness: the spec scenario with an already-trimmed parked message,
via the amended resumption theorem. -/
theorem C2_resumption_original_witness :
    (chatIdentityHandle (fun _ => none)
      { message := str "Schmidt, Anna, anna@x.com"
        original_message := some (str "Ich kann mich nicht einloggen") }).original_message =
      str "Ich kann mich nicht einloggen" ∧
    (chatIdentityHandle (fun _ => none)
      { message := str "Ich kann mich nicht einloggen"
        name := some (str "Schmidt")
        vorname := some (str "Anna")
        email := some (str "anna@x.com") }).original_message =
      pstrip (str "Ich kann mich nicht einloggen") := by
  have h := C2_resumption_original (fun _ => none) (fun _ => none)
    (str "Ich kann mich nicht einloggen") (str "Schmidt, Anna, anna@x.com")
    (some (str "Schmidt")) (some (str "Anna")) (some (str "anna@x.com"))
    (by decide) (by decide) (by decide) (by decide) (by decide)
  exact ⟨h.1, h.2.1⟩

/-- C7 counterexample: a message-keyed parked session (key = fingerprint
of "m") is resumed and the run completes; its parked entry is cleared, yet
a subsequent lookup of that key returns another session's waiting state
through the any-waiting fallback — not the claimed "not waiting" state. -/
theorem C7_clear_counterexample :
    (process_ticket (fun m => m)
      (fun _ => some { status := str "completed", message := str "ok" })
      (str "Schmidt, Anna, anna@x.com") none none
      ⟨[], [(str "m", ⟨true, some (str "m")⟩), (str "k2", ⟨true, some (str "k2")⟩)]⟩).1.status =
      str "completed" ∧
    dlookup (process_ticket (fun m => m)
      (fun _ => some { status := str "completed", message := str "ok" })
      (str "Schmidt, Anna, anna@x.com") none none
      ⟨[], [(str "m", ⟨true, some (str "m")⟩), (str "k2", ⟨true, some (str "k2")⟩)]⟩).2.byMessage
      (str "m") = none ∧
    get_thread_state (fun m => m)
      (process_ticket (fun m => m)
        (fun _ => some { status := str "completed", message := str "ok" })
        (str "Schmidt, Anna, anna@x.com") none none
        ⟨[], [(str "m", ⟨true, some (str "m")⟩), (str "k2", ⟨true, some (str "k2")⟩)]⟩).2
      none (some (str "m")) = ⟨true, some (str "k2")⟩ ∧
    (⟨true, some (str "k2")⟩ : SessionState) ≠ defaultState := by decide

/-- C7 (amended): when a `process_ticket` run completes, the session store
commits the not-waiting transition for the run's key: a thread-keyed
session's entry is removed and a subsequent thread lookup returns the
default not-waiting state regardless of other entries; a message-keyed
session's parked entry is removed as well (though a message-keyed lookup
may still surface another parked session through the DevUI fallback). -/
theorem C7_clear_on_completion (hash : Str → Str)
    (f : TicketInput → Option TicketResponse) (store : IdentityStore)
    (message : Str) (original_message : Option Str) (thread_id : Option Str)
    (hwf : ∀ input, ∃ resp, f input = some resp ∧ resp.status = str "completed")
    (hnr : ¬((waitingPair hash store thread_id message).1 = true ∧
      identityFormatMatch (pstrip message) = false)) :
    (process_ticket hash f message original_message thread_id store).1.status =
      str "completed" ∧
    (process_ticket hash f message original_message thread_id store).2 =
      set_thread_state hash store thread_id false
        (some (runOriginalMsg hash store message original_message thread_id)) ∧
    (∀ t : Str, thread_id = some t → t.isEmpty = false →
      dlookup (process_ticket hash f message original_message thread_id store).2.byThread
        t = none ∧
      get_thread_state hash
        (process_ticket hash f message original_message thread_id store).2
        (some t) none = defaultState) ∧
    (truthy thread_id = false →
      truthy (some (runOriginalMsg hash store message original_message thread_id)) = true →
      dlookup (process_ticket hash f message original_message thread_id store).2.byMessage
        (hash (runOriginalMsg hash store message original_message thread_id)) = none) := by
  have hcond : ((waitingPair hash store thread_id message).1 &&
      !identityFormatMatch (pstrip message)) = false := by
    cases h1 : (waitingPair hash store thread_id message).1 <;>
      cases h2 : identityFormatMatch (pstrip message) <;> simp_all
  obtain ⟨resp, hf, hst⟩ := hwf
    { message := message
      original_message :=
        if truthy (resolvedOriginal hash store message original_message thread_id) then
          resolvedOriginal hash store message original_message thread_id
        else none }
  have hne1 : (str "completed" == str "missing_identity") = false := by decide
  have heq1 : (str "completed" == str "completed") = true := by decide
  have hred : process_ticket hash f message original_message thread_id store =
      ({ status := resp.status
         message := resp.message
         metadata :=
           if truthy (resolvedOriginal hash store message original_message thread_id) then
             dinsert resp.metadata (str "original_message")
               (.s ((resolvedOriginal hash store message original_message thread_id).getD []))
           else resp.metadata
         payload := resp.payload
         is_historian_answer :=
           getMetaCategory resp.metadata == some TicketCategory.AI_HISTORY.value &&
             resp.status == str "completed" },
       set_thread_state hash store thread_id false
         (some (runOriginalMsg hash store message original_message thread_id))) := by
    simp only [process_ticket, hcond, Bool.false_eq_true, if_false, hf, hst, hne1, heq1,
      if_true]
  refine ⟨?_, ?_, ?_, ?_⟩
  · rw [hred]
    exact hst
  · rw [hred]
  · intro t ht hte
    rw [hred]
    have htt : truthy thread_id = true := by simp [ht, truthy, hte]
    constructor
    · simp only [set_thread_state, Bool.false_eq_true, if_false, htt, if_true]
      simpa [ht] using dlookup_derase store.byThread t
    · have hmiss : dlookup (set_thread_state hash store thread_id false
          (some (runOriginalMsg hash store message original_message thread_id))).byThread
          t = none := by
        simp only [set_thread_state, Bool.false_eq_true, if_false, htt, if_true]
        simpa [ht] using dlookup_derase store.byThread t
      simp [get_thread_state, truthy, hte, hmiss]
  · intro htf hto
    rw [hred]
    simp only [set_thread_state, Bool.false_eq_true, if_false, htf, hto, if_true]
    exact dlookup_derase store.byMessage _

/-- C7 witness: a thread-keyed parked session resumed with a strict reply
completes and its thread entry is cleared, via the clear-on-completion
theorem. -/
theorem C7_clear_on_completion_witness :
    (process_ticket (fun m => m)
      (fun _ => some { status := str "completed", message := str "ok" })
      (str "Schmidt, Anna, anna@x.com") none (some (str "T1"))
      ⟨[(str "T1", ⟨true, some (str "Login kaputt")⟩)], []⟩).1.status = str "completed" ∧
    get_thread_state (fun m => m)
      (process_ticket (fun m => m)
        (fun _ => some { status := str "completed", message := str "ok" })
        (str "Schmidt, Anna, anna@x.com") none (some (str "T1"))
        ⟨[(str "T1", ⟨true, some (str "Login kaputt")⟩)], []⟩).2
      (some (str "T1")) none = defaultState := by
  have h := C7_clear_on_completion (fun m => m)
    (fun _ => some { status := str "completed", message := str "ok" })
    ⟨[(str "T1", ⟨true, some (str "Login kaputt")⟩)], []⟩
    (str "Schmidt, Anna, anna@x.com") none (some (str "T1"))
    (fun input => ⟨{ status := str "completed", message := str "ok" }, rfl, rfl⟩)
    (by decide)
  exact ⟨h.1, (h.2.2.1 (str "T1") rfl (by decide)).2⟩

/-- A match of the email pattern is never empty (its local run has at
least one character). -/
theorem emailMatchAt_ne_nil (l e : Str) (h : emailMatchAt l = some e) : e ≠ [] := by
  unfold emailMatchAt at h
  split at h
  · exact absurd h (by simp)
  · split at h
    · split at h
      · simp only [Option.some.injEq] at h
        subst h
        simp [List.append_eq_nil]
      · exact absurd h (by simp)
    · exact absurd h (by simp)

/-- A successful email search never returns the empty string. -/
theorem emailSearch_ne_nil : ∀ l e : Str, emailSearch l = some e → e ≠ [] := by
  intro l
  induction l with
  | nil => intro e h; simp [emailSearch] at h
  | cons c rest ih =>
    intro e h
    rw [emailSearch] at h
    cases hm : emailMatchAt (c :: rest) with
    | some m =>
      rw [hm] at h
      simp only [Option.some.injEq] at h
      subst h
      exact emailMatchAt_ne_nil _ _ hm
    | none =>
      rw [hm] at h
      exact ih e h

/-- Stripping an all-whitespace string yields the empty string. -/
theorem pstrip_of_all_space (l : Str) (h : l.all isPySpace = true) : pstrip l = [] := by
  have hd : l.dropWhile isPySpace = [] :=
    List.dropWhile_eq_nil_iff.mpr (fun x hx => by
      simpa using List.all_eq_true.mp h x hx)
  simp [pstrip, hd]

/-- A non-empty strip-fixed string is not all whitespace. -/
theorem part_not_space (p : Str) (hne : p.isEmpty = false) (hs : pstrip p = p) :
    p.all isPySpace = false := by
  cases hall : p.all isPySpace
  · rfl
  · exfalso
    have h0 := pstrip_of_all_space p hall
    rw [hs] at h0
    rw [h0] at hne
    simp at hne

theorem globalEmailStep_name (context : TicketContext) (missing : List Str) (text : Str) :
    (globalEmailStep context missing text).name = context.name ∧
    (globalEmailStep context missing text).vorname = context.vorname := by
  unfold globalEmailStep
  split <;> simp

theorem globalEmailStep_email_some (context : TicketContext) (missing : List Str)
    (text e : Str) (hmem : missing.contains (str "email") = true)
    (h : emailSearch text = some e) :
    (globalEmailStep context missing text).email = some (lowerStr e) := by
  have hmem2 : str "email" ∈ missing := by simpa using hmem
  simp [globalEmailStep, h, hmem2]

theorem globalEmailStep_none (context : TicketContext) (missing : List Str) (text : Str)
    (h : emailSearch text = none) :
    globalEmailStep context missing text = context := by
  simp [globalEmailStep, h]

/-- The surname assignment of the strict branch on an absent field and a
well-formed part. -/
theorem assignPart_name_set (c : TicketContext) (p : Str)
    (hcur : c.name = none) (he : p.isEmpty = false) (hs : pstrip p = p)
    (hsp : p.all isPySpace = false) :
    assignPart c allIdentityFields (str "name") c.name
      (fun c v => { c with name := some v }) p = { c with name := some p } := by
  have hcn : str "name" ∈ allIdentityFields := by decide
  simp [assignPart, hcur, truthy, hs, he, hsp, hcn]

/-- The given-name assignment of the strict branch on an absent field and
a well-formed part. -/
theorem assignPart_vorname_set (c : TicketContext) (p : Str)
    (hcur : c.vorname = none) (he : p.isEmpty = false) (hs : pstrip p = p)
    (hsp : p.all isPySpace = false) :
    assignPart c allIdentityFields (str "vorname") c.vorname
      (fun c v => { c with vorname := some v }) p = { c with vorname := some p } := by
  have hcv : str "vorname" ∈ allIdentityFields := by decide
  simp [assignPart, hcur, truthy, hs, he, hsp, hcv]

/-- Strict extraction with the email in the third slot: the first part is
the surname, the second the given name; a truthy email is not
overwritten. -/
theorem strictExtract_pos2 (context : TicketContext) (p0 p1 p2 : Str)
    (hb0 : emailFound p0 = false) (hb1 : emailFound p1 = false)
    (hb2 : emailFound p2 = true)
    (hname : context.name = none) (hvor : context.vorname = none)
    (h0e : p0.isEmpty = false) (h0s : pstrip p0 = p0) (h0sp : p0.all isPySpace = false)
    (h1e : p1.isEmpty = false) (h1s : pstrip p1 = p1) (h1sp : p1.all isPySpace = false) :
    (strictExtract context allIdentityFields [p0, p1, p2]).name = some p0 ∧
    (strictExtract context allIdentityFields [p0, p1, p2]).vorname = some p1 ∧
    (truthy context.email = true →
      (strictExtract context allIdentityFields [p0, p1, p2]).email = context.email) := by
  have hce : str "email" ∈ allIdentityFields := by decide
  have hni2 : ((List.range 3).filter (fun i => i ≠ 2)).length = 2 := by decide
  by_cases hte : truthy context.email = true
  · have hred : strictExtract context allIdentityFields [p0, p1, p2] =
        assignPart (assignPart context allIdentityFields (str "name") context.name
            (fun c v => { c with name := some v }) p0)
          allIdentityFields (str "vorname")
          (assignPart context allIdentityFields (str "name") context.name
            (fun c v => { c with name := some v }) p0).vorname
          (fun c v => { c with vorname := some v }) p1 := by
      unfold strictExtract
      simp [firstEmailIdx, hb0, hb1, hb2, hte, hce, hni2]
      intro hlen
      exact absurd (by decide) hlen
    rw [hred, assignPart_name_set context p0 hname h0e h0s h0sp]
    rw [assignPart_vorname_set { context with name := some p0 } p1 hvor h1e h1s h1sp]
    exact ⟨rfl, rfl, fun _ => rfl⟩
  · have htef : truthy context.email = false := by simpa using hte
    have hred : strictExtract context allIdentityFields [p0, p1, p2] =
        assignPart (assignPart { context with email := (emailSearch p2).map lowerStr }
            allIdentityFields (str "name") context.name
            (fun c v => { c with name := some v }) p0)
          allIdentityFields (str "vorname")
          (assignPart { context with email := (emailSearch p2).map lowerStr }
            allIdentityFields (str "name") context.name
            (fun c v => { c with name := some v }) p0).vorname
          (fun c v => { c with vorname := some v }) p1 := by
      unfold strictExtract
      simp [firstEmailIdx, hb0, hb1, hb2, htef, hce, hni2]
      intro hlen
      exact absurd (by decide) hlen
    rw [hred]
    rw [assignPart_name_set { context with email := (emailSearch p2).map lowerStr }
      p0 hname h0e h0s h0sp]
    rw [assignPart_vorname_set
      { context with email := (emailSearch p2).map lowerStr, name := some p0 }
      p1 hvor h1e h1s h1sp]
    exact ⟨rfl, rfl, fun hc => absurd hc hte⟩

/-- Strict extraction with the email in the first slot: the remaining two
parts are assigned surname-then-given-name in their original order. -/
theorem strictExtract_pos0 (context : TicketContext) (p0 p1 p2 : Str)
    (hb0 : emailFound p0 = true)
    (hname : context.name = none) (hvor : context.vorname = none)
    (h1e : p1.isEmpty = false) (h1s : pstrip p1 = p1) (h1sp : p1.all isPySpace = false)
    (h2e : p2.isEmpty = false) (h2s : pstrip p2 = p2) (h2sp : p2.all isPySpace = false) :
    (strictExtract context allIdentityFields [p0, p1, p2]).name = some p1 ∧
    (strictExtract context allIdentityFields [p0, p1, p2]).vorname = some p2 ∧
    (truthy context.email = true →
      (strictExtract context allIdentityFields [p0, p1, p2]).email = context.email) := by
  have hce : str "email" ∈ allIdentityFields := by decide
  by_cases hte : truthy context.email = true
  · have hred : strictExtract context allIdentityFields [p0, p1, p2] =
        assignPart (assignPart context allIdentityFields (str "name") context.name
            (fun c v => { c with name := some v }) p1)
          allIdentityFields (str "vorname")
          (assignPart context allIdentityFields (str "name") context.name
            (fun c v => { c with name := some v }) p1).vorname
          (fun c v => { c with vorname := some v }) p2 := by
      unfold strictExtract
      simp [firstEmailIdx, hb0, hte, hce]
      rw [if_pos (by decide)]
      rfl
    rw [hred, assignPart_name_set context p1 hname h1e h1s h1sp]
    rw [assignPart_vorname_set { context with name := some p1 } p2 hvor h2e h2s h2sp]
    exact ⟨rfl, rfl, fun _ => rfl⟩
  · have htef : truthy context.email = false := by simpa using hte
    have hred : strictExtract context allIdentityFields [p0, p1, p2] =
        assignPart (assignPart { context with email := (emailSearch p0).map lowerStr }
            allIdentityFields (str "name") context.name
            (fun c v => { c with name := some v }) p1)
          allIdentityFields (str "vorname")
          (assignPart { context with email := (emailSearch p0).map lowerStr }
            allIdentityFields (str "name") context.name
            (fun c v => { c with name := some v }) p1).vorname
          (fun c v => { c with vorname := some v }) p2 := by
      unfold strictExtract
      simp [firstEmailIdx, hb0, htef, hce]
      rw [if_pos (by decide)]
      rfl
    rw [hred]
    rw [assignPart_name_set { context with email := (emailSearch p0).map lowerStr }
      p1 hname h1e h1s h1sp]
    rw [assignPart_vorname_set
      { context with email := (emailSearch p0).map lowerStr, name := some p1 }
      p2 hvor h2e h2s h2sp]
    exact ⟨rfl, rfl, fun hc => absurd hc hte⟩

/-- Strict extraction with the email in the second slot: the remaining two
parts are assigned surname-then-given-name in their original order. -/
theorem strictExtract_pos1 (context : TicketContext) (p0 p1 p2 : Str)
    (hb0 : emailFound p0 = false) (hb1 : emailFound p1 = true)
    (hname : context.name = none) (hvor : context.vorname = none)
    (h0e : p0.isEmpty = false) (h0s : pstrip p0 = p0) (h0sp : p0.all isPySpace = false)
    (h2e : p2.isEmpty = false) (h2s : pstrip p2 = p2) (h2sp : p2.all isPySpace = false) :
    (strictExtract context allIdentityFields [p0, p1, p2]).name = some p0 ∧
    (strictExtract context allIdentityFields [p0, p1, p2]).vorname = some p2 ∧
    (truthy context.email = true →
      (strictExtract context allIdentityFields [p0, p1, p2]).email = context.email) := by
  have hce : str "email" ∈ allIdentityFields := by decide
  by_cases hte : truthy context.email = true
  · have hred : strictExtract context allIdentityFields [p0, p1, p2] =
        assignPart (assignPart context allIdentityFields (str "name") context.name
            (fun c v => { c with name := some v }) p0)
          allIdentityFields (str "vorname")
          (assignPart context allIdentityFields (str "name") context.name
            (fun c v => { c with name := some v }) p0).vorname
          (fun c v => { c with vorname := some v }) p2 := by
      unfold strictExtract
      simp [firstEmailIdx, hb0, hb1, hte, hce]
      rw [if_pos (by decide)]
      rfl
    rw [hred, assignPart_name_set context p0 hname h0e h0s h0sp]
    rw [assignPart_vorname_set { context with name := some p0 } p2 hvor h2e h2s h2sp]
    exact ⟨rfl, rfl, fun _ => rfl⟩
  · have htef : truthy context.email = false := by simpa using hte
    have hred : strictExtract context allIdentityFields [p0, p1, p2] =
        assignPart (assignPart { context with email := (emailSearch p1).map lowerStr }
            allIdentityFields (str "name") context.name
            (fun c v => { c with name := some v }) p0)
          allIdentityFields (str "vorname")
          (assignPart { context with email := (emailSearch p1).map lowerStr }
            allIdentityFields (str "name") context.name
            (fun c v => { c with name := some v }) p0).vorname
          (fun c v => { c with vorname := some v }) p2 := by
      unfold strictExtract
      simp [firstEmailIdx, hb0, hb1, htef, hce]
      rw [if_pos (by decide)]
      rfl
    rw [hred]
    rw [assignPart_name_set { context with email := (emailSearch p1).map lowerStr }
      p0 hname h0e h0s h0sp]
    rw [assignPart_vorname_set
      { context with email := (emailSearch p1).map lowerStr, name := some p0 }
      p2 hvor h2e h2s h2sp]
    exact ⟨rfl, rfl, fun hc => absurd hc hte⟩

/-- C3: on an input whose stripped text splits into exactly three
non-empty comma segments of which exactly one matches the email pattern,
the strict-form extractor assigns: email at the third slot — surname from
the first segment, given name from the second; otherwise the two
non-email segments in their original order; the email field receives the
lowercased first email match of the text. -/
theorem C3_strict_form_extraction (text : Str)
    (h3 : (splitStripFilter (pstrip text)).length = 3)
    (hone : (splitStripFilter (pstrip text)).countP emailFound = 1) :
    ∃ ei, firstEmailIdx (splitStripFilter (pstrip text)) = some ei ∧
      emailFound ((splitStripFilter (pstrip text)).getD ei []) = true ∧
      (ei = 2 →
        (applyRegexFallback { original_message := [] } allIdentityFields
          (some text)).name = some ((splitStripFilter (pstrip text)).getD 0 []) ∧
        (applyRegexFallback { original_message := [] } allIdentityFields
          (some text)).vorname = some ((splitStripFilter (pstrip text)).getD 1 [])) ∧
      (ei ≠ 2 →
        (applyRegexFallback { original_message := [] } allIdentityFields
          (some text)).name = some ((splitStripFilter (pstrip text)).getD
            (((List.range 3).filter (fun i => i ≠ ei)).getD 0 0) []) ∧
        (applyRegexFallback { original_message := [] } allIdentityFields
          (some text)).vorname = some ((splitStripFilter (pstrip text)).getD
            (((List.range 3).filter (fun i => i ≠ ei)).getD 1 0) [])) ∧
      (∀ e, emailSearch (pstrip text) = some e →
        (applyRegexFallback { original_message := [] } allIdentityFields
          (some text)).email = some (lowerStr e)) := by
  obtain ⟨p0, p1, p2, hp⟩ :
      ∃ p0 p1 p2, splitStripFilter (pstrip text) = [p0, p1, p2] := by
    cases hl : splitStripFilter (pstrip text) with
    | nil => rw [hl] at h3; simp at h3
    | cons a t1 =>
      cases t1 with
      | nil => rw [hl] at h3; simp at h3
      | cons b t2 =>
        cases t2 with
        | nil => rw [hl] at h3; simp at h3
        | cons c t3 =>
          cases t3 with
          | nil => exact ⟨a, b, c, rfl⟩
          | cons d t4 => rw [hl] at h3; simp at h3
  have htne : (pstrip text).isEmpty = false := by
    cases he : (pstrip text).isEmpty
    · rfl
    · exfalso
      have hnil : pstrip text = [] := by simpa using he
      rw [hnil] at hp
      exact absurd hp (by simp [show splitStripFilter ([] : Str) = [] from rfl])
  have hred : applyRegexFallback { original_message := [] } allIdentityFields (some text) =
      strictExtract (globalEmailStep { original_message := [] } allIdentityFields
        (pstrip text)) allIdentityFields [p0, p1, p2] := by
    unfold applyRegexFallback
    rw [if_neg (by decide)]
    dsimp only
    simp only [htne, Bool.false_eq_true, if_false]
    rw [hp]
    rw [if_neg (by simp)]
  have hm0 : p0 ∈ splitStripFilter (pstrip text) := by rw [hp]; simp
  have hm1 : p1 ∈ splitStripFilter (pstrip text) := by rw [hp]; simp
  have hm2 : p2 ∈ splitStripFilter (pstrip text) := by rw [hp]; simp
  obtain ⟨h0e, h0s⟩ := mem_splitStripFilter _ _ hm0
  obtain ⟨h1e, h1s⟩ := mem_splitStripFilter _ _ hm1
  obtain ⟨h2e, h2s⟩ := mem_splitStripFilter _ _ hm2
  have h0sp := part_not_space p0 h0e h0s
  have h1sp := part_not_space p1 h1e h1s
  have h2sp := part_not_space p2 h2e h2s
  have hgn := globalEmailStep_name { original_message := [] } allIdentityFields (pstrip text)
  rw [hp] at hone
  cases hb0 : emailFound p0 <;> cases hb1 : emailFound p1 <;> cases hb2 : emailFound p2 <;>
    simp [List.countP_cons, hb0, hb1, hb2] at hone
  · -- email in the third slot
    have hpos := strictExtract_pos2
      (globalEmailStep { original_message := [] } allIdentityFields (pstrip text))
      p0 p1 p2 hb0 hb1 hb2 hgn.1 hgn.2 h0e h0s h0sp h1e h1s h1sp
    refine ⟨2, ?_, ?_, ?_, ?_, ?_⟩
    · rw [hp]; simp [firstEmailIdx, hb0, hb1, hb2]
    · rw [hp]; simpa using hb2
    · intro _
      constructor
      · rw [hred, hpos.1, hp]
        rfl
      · rw [hred, hpos.2.1, hp]
        rfl
    · intro hne
      exact absurd rfl hne
    · intro e he
      have hnz := emailSearch_ne_nil _ _ he
      have hem := globalEmailStep_email_some { original_message := [] } allIdentityFields
        (pstrip text) e (by decide) he
      have htr : truthy (globalEmailStep { original_message := [] } allIdentityFields
          (pstrip text)).email = true := by
        rw [hem]
        simpa [truthy, lowerStr] using hnz
      rw [hred]
      exact (hpos.2.2 htr).trans hem
  · -- email in the second slot
    have hpos := strictExtract_pos1
      (globalEmailStep { original_message := [] } allIdentityFields (pstrip text))
      p0 p1 p2 hb0 hb1 hgn.1 hgn.2 h0e h0s h0sp h2e h2s h2sp
    refine ⟨1, ?_, ?_, ?_, ?_, ?_⟩
    · rw [hp]; simp [firstEmailIdx, hb0, hb1]
    · rw [hp]; simpa using hb1
    · intro h2
      exact absurd h2 (by decide)
    · intro _
      constructor
      · rw [hred, hpos.1, hp]
        rfl
      · rw [hred, hpos.2.1, hp]
        rfl
    · intro e he
      have hnz := emailSearch_ne_nil _ _ he
      have hem := globalEmailStep_email_some { original_message := [] } allIdentityFields
        (pstrip text) e (by decide) he
      have htr : truthy (globalEmailStep { original_message := [] } allIdentityFields
          (pstrip text)).email = true := by
        rw [hem]
        simpa [truthy, lowerStr] using hnz
      rw [hred]
      exact (hpos.2.2 htr).trans hem
  · -- email in the first slot
    have hpos := strictExtract_pos0
      (globalEmailStep { original_message := [] } allIdentityFields (pstrip text))
      p0 p1 p2 hb0 hgn.1 hgn.2 h1e h1s h1sp h2e h2s h2sp
    refine ⟨0, ?_, ?_, ?_, ?_, ?_⟩
    · rw [hp]; simp [firstEmailIdx, hb0]
    · rw [hp]; simpa using hb0
    · intro h2
      exact absurd h2 (by decide)
    · intro _
      constructor
      · rw [hred, hpos.1, hp]
        rfl
      · rw [hred, hpos.2.1, hp]
        rfl
    · intro e he
      have hnz := emailSearch_ne_nil _ _ he
      have hem := globalEmailStep_email_some { original_message := [] } allIdentityFields
        (pstrip text) e (by decide) he
      have htr : truthy (globalEmailStep { original_message := [] } allIdentityFields
          (pstrip text)).email = true := by
        rw [hem]
        simpa [truthy, lowerStr] using hnz
      rw [hred]
      exact (hpos.2.2 htr).trans hem

/-- C3 witness: the spec scenario `"Müller, Hans, hans@example.com"` —
email in the third slot, name Müller, given name Hans — via the
strict-form theorem. -/
theorem C3_strict_form_extraction_witness :
    (splitStripFilter (pstrip (str "Müller, Hans, hans@example.com"))).length = 3 ∧
    (splitStripFilter (pstrip (str "Müller, Hans, hans@example.com"))).countP
      emailFound = 1 ∧
    (applyRegexFallback { original_message := [] } allIdentityFields
      (some (str "Müller, Hans, hans@example.com"))).name = some (str "Müller") ∧
    (applyRegexFallback { original_message := [] } allIdentityFields
      (some (str "Müller, Hans, hans@example.com"))).vorname = some (str "Hans") ∧
    (applyRegexFallback { original_message := [] } allIdentityFields
      (some (str "Müller, Hans, hans@example.com"))).email =
      some (str "hans@example.com") := by
  obtain ⟨ei, hidx, hfound, h2, hne2, hem⟩ :=
    C3_strict_form_extraction (str "Müller, Hans, hans@example.com")
      (by decide) (by decide)
  have hsome : some ei = some 2 := hidx.symm.trans (by decide)
  have hei : ei = 2 := by injection hsome
  refine ⟨by decide, by decide, ?_, ?_, ?_⟩
  · rw [(h2 hei).1]
    decide
  · rw [(h2 hei).2]
    decide
  · rw [hem (str "hans@example.com") (by decide)]
    decide

end ChatAgents
